import Mathlib

/-!
# ARCoreApp native bridge: embedding and verified properties

Shallow embedding of `app/src/main/cpp/arcoreapp.cc` (class `arcoreapp::ARCoreApp`).

* In the texture-transform computation a finite C++ `float` is the rational it denotes, and
  the `float` subtraction of the source is the exact difference rounded to the nearest
  binary32 value, ties to even (`fsub`).  Infinities and NaN have no counterpart in `ℚ`.
  Products and sums that the theorems form with the returned matrix are exact.
* The stateful operations are embedded as functions on a `World`: the fields of the
  `ARCoreApp` object, the depth mode the AR session was last configured with, and the
  ordered log of every external call the operation issues (ARCore C API, OpenGL,
  collaborating renderer objects, filesystem, logging).  An operation ends in an `Outcome`:
  it returns, a failed `CHECK` aborts the process, or a C++ exception leaves it.
* The ARCore SDK and the platform are external.  Whatever they answer during one invocation
  of an operation is supplied by a `SdkAnswers` record, over which all theorems quantify.
-/

namespace arcoreapp

/-! ## Binary32 subtraction -/

/-- Nearest integer to `t`, a tie going to the even neighbour. -/
def roundHalfEven (t : ℚ) : ℤ :=
  let f := ⌊t⌋
  let r := t - f
  if r < 1 / 2 then f
  else if 1 / 2 < r then f + 1
  else if f % 2 = 0 then f
  else f + 1

/-- Exponent of the spacing of binary32 values around `q`: 24 significant bits, with the
spacing of the subnormal range, 2^(-149), below 2^(-126). -/
def ulpExponent (q : ℚ) : ℤ := max (Int.log 2 |q|) (-126) - 23

/-- The largest finite binary32 value, (2^24 - 1) * 2^104. -/
def maxBinary32 : ℚ := (2 ^ 24 - 1) * 2 ^ 104

/-- The binary32 value nearest to `q` (round to nearest, ties to even, the default rounding
mode).  A `q` beyond `maxBinary32`, which C++ would turn into an infinity, is outside what
`ℚ` can hold; it is rounded with the same 24-bit precision, and `subtractionExact` excludes
that range. -/
def roundBinary32 (q : ℚ) : ℚ :=
  roundHalfEven (q / 2 ^ ulpExponent q) * 2 ^ ulpExponent q

/-- The C++ expression `a - b` on two finite `float` operands. -/
def fsub (a b : ℚ) : ℚ := roundBinary32 (a - b)

/-! ## Texture transform (arcoreapp.cc, lines 211-236) -/

/-- The constant `ndcBasis[6] = {0, 0, 1, 0, 0, 1}`: the NDC points (0,0), (1,0), (0,1). -/
def ndcBasis : Fin 6 → ℚ := ![0, 0, 1, 0, 0, 1]

/-- Lines 223-233: fills `uvTransform[9]` from the transformed points `frameTransform[6]`.
The four differences are `float` subtractions; the origin is copied. -/
def uvTransformOf (frameTransform : Fin 6 → ℚ) : Fin 9 → ℚ :=
  let ndcOriginX := frameTransform 0
  let ndcOriginY := frameTransform 1
  ![fsub (frameTransform 2) ndcOriginX,
    fsub (frameTransform 3) ndcOriginY,
    0,
    fsub (frameTransform 4) ndcOriginX,
    fsub (frameTransform 5) ndcOriginY,
    0,
    ndcOriginX,
    ndcOriginY,
    1]

/-- The library call `glm::make_mat3(ptr)`: glm matrices are column-major, so the entry in row
`row` of column `col` is `ptr[3 * col + row]`. -/
def make_mat3 (p : Fin 9 → ℚ) : Matrix (Fin 3) (Fin 3) ℚ :=
  Matrix.of fun row col => p ⟨3 * col.val + row.val, by omega⟩

/-- `ARCoreApp::GetTextureTransformMatrix`.  The SDK call `ArFrame_transformCoordinates2d`
(for the fixed session, frame and coordinate systems, with 3 vertices) is the parameter: it
maps the six input floats to the six output floats. -/
def GetTextureTransformMatrix
    (ArFrame_transformCoordinates2d : (Fin 6 → ℚ) → (Fin 6 → ℚ)) :
    Matrix (Fin 3) (Fin 3) ℚ :=
  let frameTransform := ArFrame_transformCoordinates2d ndcBasis
  make_mat3 (uvTransformOf frameTransform)

/-- An SDK coordinate transform that acts on each of the three XY pairs by the plane
map `T`. -/
def pointwiseTransform (T : ℚ × ℚ → ℚ × ℚ) (v : Fin 6 → ℚ) : Fin 6 → ℚ :=
  ![(T (v 0, v 1)).1, (T (v 0, v 1)).2,
    (T (v 2, v 3)).1, (T (v 2, v 3)).2,
    (T (v 4, v 5)).1, (T (v 4, v 5)).2]

/-- The `float` subtraction `a - b` is exact: the true difference lies in the finite
binary32 range and the computed difference equals it (no rounding, no infinity). -/
def subtractionExact (a b : ℚ) : Prop :=
  |a - b| ≤ maxBinary32 ∧ fsub a b = a - b

instance (a b : ℚ) : Decidable (subtractionExact a b) := by
  unfold subtractionExact
  infer_instance

/-- The four `float` subtractions of lines 225-229 are exact on the transformed points
`frameTransform`. -/
def subtractionsExact (frameTransform : Fin 6 → ℚ) : Prop :=
  subtractionExact (frameTransform 2) (frameTransform 0) ∧
    subtractionExact (frameTransform 3) (frameTransform 1) ∧
    subtractionExact (frameTransform 4) (frameTransform 0) ∧
    subtractionExact (frameTransform 5) (frameTransform 1)

instance (frameTransform : Fin 6 → ℚ) : Decidable (subtractionsExact frameTransform) := by
  unfold subtractionsExact
  infer_instance

/-- The plane map induced by a 3x3 matrix acting on homogeneous coordinates `(x, y, 1)`:
the first two components of the product. -/
def applyToUV (M : Matrix (Fin 3) (Fin 3) ℚ) (p : ℚ × ℚ) : ℚ × ℚ :=
  ((M.mulVec ![p.1, p.2, 1]) 0, (M.mulVec ![p.1, p.2, 1]) 1)

/-- The affine map of the plane that sends (0,0) to `o`, (1,0) to `o + u` and (0,1) to
`o + v`. -/
def planeAffineMap (o u v : ℚ × ℚ) : (ℚ × ℚ) →ᵃ[ℚ] (ℚ × ℚ) where
  toFun p := p.1 • u + p.2 • v + o
  linear :=
    { toFun := fun p => p.1 • u + p.2 • v
      map_add' := by
        intro p q
        ext <;> simp <;> ring
      map_smul' := by
        intro c p
        ext <;> simp <;> ring }
  map_vadd' := by
    intro p q
    ext <;> simp <;> ring

/-- The mapping from NDC to texture coordinates of an unrotated display: it halves both
axes, flips the vertical one and centres the result, so (0,0), (1,0), (0,1) go to
(1/2, 1/2), (1, 1/2), (1/2, 0). -/
def unrotatedMap : (ℚ × ℚ) →ᵃ[ℚ] (ℚ × ℚ) :=
  planeAffineMap (1 / 2, 1 / 2) (1 / 2, 0) (0, -1 / 2)

/-- The affine map through the binary32 points o = (0.1f, 0.2f), p1 = (0.7f, 0.2f),
p2 = (0.1f, 0.9f). -/
def roundingMap : (ℚ × ℚ) →ᵃ[ℚ] (ℚ × ℚ) :=
  planeAffineMap (13421773 / 2 ^ 27, 13421773 / 2 ^ 26)
    (11744051 / 2 ^ 24 - 13421773 / 2 ^ 27, 0)
    (0, 15099494 / 2 ^ 24 - 13421773 / 2 ^ 26)

/-- An SDK transform that returns o = (2^(-31), 0), p1 = (1/2, 1/2), p2 = (1, 1), three
binary32 points that are not collinear. -/
def nearlyCollinearSdk : (Fin 6 → ℚ) → (Fin 6 → ℚ) :=
  fun _ => ![1 / 2 ^ 31, 0, 1 / 2, 1 / 2, 1, 1]

/-! ## Enumerations of the ARCore C API used by the adapter -/

/-- A non-null opaque pointer; a C++ pointer is an `Option Handle`, `none` being `nullptr`. -/
abbrev Handle := Nat

/-- `ArStatus` is a C enum; `AR_SUCCESS` is 0 and every other value is an error. -/
abbrev ArStatus := Int

/-- The value `AR_SUCCESS`. -/
def AR_SUCCESS : ArStatus := 0

/-- `ArInstallStatus`. -/
inductive ArInstallStatus where
  | AR_INSTALL_STATUS_INSTALLED
  | AR_INSTALL_STATUS_INSTALL_REQUESTED
  deriving DecidableEq, Repr

/-- `ArTrackingState`. -/
inductive ArTrackingState where
  | AR_TRACKING_STATE_TRACKING
  | AR_TRACKING_STATE_PAUSED
  | AR_TRACKING_STATE_STOPPED
  deriving DecidableEq, Repr

/-- `ArDepthMode`. -/
inductive ArDepthMode where
  | AR_DEPTH_MODE_DISABLED
  | AR_DEPTH_MODE_AUTOMATIC
  | AR_DEPTH_MODE_RAW_DEPTH_ONLY
  deriving DecidableEq, Repr

/-- The OpenGL capabilities enabled by `OnDrawFrame`. -/
inductive GLcap where
  | GL_CULL_FACE
  | GL_DEPTH_TEST
  deriving DecidableEq, Repr

/-! ## External calls -/

/-- One external call issued by the adapter, with the arguments that matter.  Session, frame,
camera and config arguments are the pointer values passed (`none` is `nullptr`); a `float`
literal argument is recorded by its decimal value. -/
inductive Event where
  | LOGI (msg : String)
  | LOGE (msg : String)
  | ThrowJavaException (msg : String)
  | ArCoreApk_requestInstall (user_requested_install : Bool)
  | ArSession_create
  | ArSession_destroy (session : Option Handle)
  | ArSession_pause (session : Option Handle)
  | ArSession_resume (session : Option Handle)
  | ArSession_setDisplayGeometry (session : Option Handle) (rotation width height : Int)
  | ArSession_setCameraTextureName (session : Option Handle) (texture : Nat)
  | ArSession_update (session frame : Option Handle)
  | ArSession_isDepthModeSupported (session : Option Handle) (mode : ArDepthMode)
  | ArSession_configure (session config : Option Handle)
  | ArFrame_create (session : Option Handle)
  | ArFrame_destroy (frame : Option Handle)
  | ArFrame_acquireCamera (session frame : Option Handle)
  | ArCamera_getViewMatrix (session camera : Option Handle)
  | ArCamera_getProjectionMatrix (session camera : Option Handle) (near far : ℚ)
  | ArCamera_getTrackingState (session camera : Option Handle)
  | ArCamera_release (camera : Option Handle)
  | ArConfig_create (session : Option Handle)
  | ArConfig_setDepthMode (session config : Option Handle) (mode : ArDepthMode)
  | ArConfig_destroy (config : Option Handle)
  | glViewport (x y width height : Int)
  | glClearColor (r g b a : ℚ)
  | glClear_depth_and_color
  | glEnable (cap : GLcap)
  | BackgroundRenderer_GetTextureId
  | BackgroundRenderer_Draw (session frame : Option Handle) (depthColorVisualizationEnabled : Bool)
  | DepthTexture_UpdateWithDepthImageOnGlThread (session frame : Option Handle)
  | fs_is_directory (path : String)
  | fs_create_directory (path : String)
  | ofstream_open_app (path : String)
  | ofstream_write_line (text : String) (reachesFile : Bool)
  | ofstream_close
  deriving DecidableEq, Repr

namespace Event

/-- Calls that take the `ArSession*` of the adapter as an argument. -/
def isSessionCall : Event → Bool
  | ArSession_destroy _ => true
  | ArSession_pause _ => true
  | ArSession_resume _ => true
  | ArSession_setDisplayGeometry _ _ _ _ => true
  | ArSession_setCameraTextureName _ _ => true
  | ArSession_update _ _ => true
  | ArSession_isDepthModeSupported _ _ => true
  | ArSession_configure _ _ => true
  | ArFrame_create _ => true
  | ArFrame_acquireCamera _ _ => true
  | ArCamera_getViewMatrix _ _ => true
  | ArCamera_getProjectionMatrix _ _ _ _ => true
  | ArCamera_getTrackingState _ _ => true
  | ArConfig_create _ => true
  | ArConfig_setDepthMode _ _ _ => true
  | BackgroundRenderer_Draw _ _ _ => true
  | DepthTexture_UpdateWithDepthImageOnGlThread _ _ => true
  | _ => false

/-- Calls into the ARCore SDK (every `Ar...` function), together with the two renderer
methods that are handed the session. -/
def isSdkCall : Event → Bool
  | ArCoreApk_requestInstall _ => true
  | ArSession_create => true
  | ArFrame_destroy _ => true
  | ArCamera_release _ => true
  | ArConfig_destroy _ => true
  | e => isSessionCall e

/-- The call `ArFrame_acquireCamera`. -/
def isAcquireCamera : Event → Bool
  | ArFrame_acquireCamera _ _ => true
  | _ => false

/-- The call `ArCamera_release`. -/
def isReleaseCamera : Event → Bool
  | ArCamera_release _ => true
  | _ => false

/-- Queries on an acquired camera: view matrix, projection matrix, tracking state. -/
def isCameraQuery : Event → Bool
  | ArCamera_getViewMatrix _ _ => true
  | ArCamera_getProjectionMatrix _ _ _ _ => true
  | ArCamera_getTrackingState _ _ => true
  | _ => false

/-- The append of one line to the dump file: a write on the append-mode stream that reaches
the file. -/
def isFileAppend : Event → Bool
  | ofstream_write_line _ reachesFile => reachesFile
  | _ => false

/-- Per-frame work that follows `ArSession_update` in `OnDrawFrame`: camera acquisition, dump
servicing, view and projection matrix queries, background draw, depth update. -/
def isPerFrameWork : Event → Bool
  | ArFrame_acquireCamera _ _ => true
  | fs_is_directory _ => true
  | fs_create_directory _ => true
  | ofstream_open_app _ => true
  | ofstream_write_line _ _ => true
  | ofstream_close => true
  | ArCamera_getViewMatrix _ _ => true
  | ArCamera_getProjectionMatrix _ _ _ _ => true
  | BackgroundRenderer_Draw _ _ _ => true
  | DepthTexture_UpdateWithDepthImageOnGlThread _ _ => true
  | _ => false

end Event

/-- No camera query occurs after an `ArCamera_release` in the call sequence. -/
def noCameraQueryAfterRelease : List Event → Bool
  | [] => true
  | e :: rest =>
    if e.isReleaseCamera then !(rest.any Event.isCameraQuery) && noCameraQueryAfterRelease rest
    else noCameraQueryAfterRelease rest

/-! ## State -/

/-- The data members of `ARCoreApp` that the operations read or write. -/
structure ARCoreApp where
  ar_session_ : Option Handle
  ar_frame_ : Option Handle
  install_requested_ : Bool
  width_ : Int
  height_ : Int
  display_rotation_ : Int
  dumpRequested : Bool
  deriving DecidableEq, Repr

/-- The adapter object, the SDK-side depth mode of the session (the depth mode of the
configuration last accepted by `ArSession_configure`, `none` before any), and the log of
external calls issued so far, oldest first. -/
structure World where
  app : ARCoreApp
  sessionDepthMode : Option ArDepthMode
  trace : List Event
  deriving DecidableEq, Repr

/-- Record one external call. -/
def World.emit (w : World) (e : Event) : World :=
  { w with trace := w.trace ++ [e] }

/-- The calls recorded in `after` since `before`. -/
def callsSince (before after : World) : List Event :=
  after.trace.drop before.trace.length

/-- What the SDK and the platform answer during one invocation of an operation.  Each field
is the result of the one call of that name the operation can make. -/
structure SdkAnswers where
  /-- Status returned by `ArCoreApk_requestInstall`. -/
  requestInstall_status : ArStatus
  /-- Value written to `install_status`. -/
  requestInstall_out : ArInstallStatus
  /-- Status returned by `ArSession_create`. -/
  sessionCreate_status : ArStatus
  /-- Value of `ar_session_` after `ArSession_create`. -/
  sessionCreate_out : Option Handle
  /-- Value of `ar_frame_` after `ArFrame_create`. -/
  frameCreate_out : Option Handle
  /-- Status returned by `ArSession_resume`. -/
  resume_status : ArStatus
  /-- Status returned by `ArSession_update`. -/
  update_status : ArStatus
  /-- Value of `ar_camera` after `ArFrame_acquireCamera`. -/
  acquireCamera_out : Option Handle
  /-- Value written to `camera_tracking_state`. -/
  trackingState_out : ArTrackingState
  /-- Value written by `ArSession_isDepthModeSupported` to its `int32_t` output, `none` when
  the query fails and leaves the output untouched. -/
  isDepthModeSupported_out : Option Int
  /-- Value of `ar_config` after `ArConfig_create`. -/
  configCreate_out : Option Handle
  /-- Status returned by `ArSession_configure`. -/
  configure_status : ArStatus
  /-- Whether `std::filesystem::is_directory` on the dump directory throws
  `std::filesystem::filesystem_error` (the overload used is the throwing one). -/
  is_directory_throws : Bool
  /-- Result of `std::filesystem::is_directory` on the dump directory when it returns. -/
  is_directory : Bool
  /-- Whether `std::filesystem::create_directory` on the dump directory throws
  `std::filesystem::filesystem_error` (the overload used is the throwing one). -/
  create_directory_throws : Bool
  /-- Whether the line inserted into the `std::ofstream` reaches the file: the stream opened
  and the write succeeded.  A stream that failed sets its fail bit and raises nothing. -/
  ofstream_write_succeeds : Bool
  /-- Result of `background_renderer_.GetTextureId()`. -/
  textureId : Nat
  deriving DecidableEq, Repr

/-- How an operation ends: it returns to the caller, a failed `CHECK` aborts the process, or
a C++ exception leaves the operation (neither `ARCoreApp` nor the JNI wrappers contain a
handler).  In each case `w` is the world at that point. -/
inductive Outcome where
  | returned (w : World)
  | aborted (w : World)
  | threw (w : World)
  deriving DecidableEq, Repr

/-- The world at the end of the operation, whichever way it ended. -/
def Outcome.world : Outcome → World
  | .returned w => w
  | .aborted w => w
  | .threw w => w

/-- The dump directory. -/
def dumpDir : String := "/data/data/com.danielwei.arcoreapp/dump"

/-- The dump file. -/
def dumpFile : String := "/data/data/com.danielwei.arcoreapp/dump/test.txt"

/-! ## Macros of util.h and the initial object -/

/-- Modelled from the spec: the macro `CHECKANDTHROW(condition, env, msg)` is defined in
util.h, which is not among the sources.  The spec says a failure to install, create or
resume "surfaces as a fatal user-facing error" and that the call "simply returns/throws":
when the condition is false a Java exception carrying `msg` is raised for the host and the
enclosing function returns; otherwise execution continues with `rest`. -/
def CHECKANDTHROW (condition : Bool) (msg : String) (w : World) (rest : World → Outcome) :
    Outcome :=
  if condition then rest w else .returned (w.emit (.ThrowJavaException msg))

/-- Modelled from the spec: the macro `CHECK(condition)` is defined in util.h, which is not
among the sources.  A failed check ends the process at that point; otherwise execution
continues with `rest`. -/
def CHECK (condition : Bool) (w : World) (rest : World → Outcome) : Outcome :=
  if condition then rest w else .aborted w

/-- Modelled from the spec: the default member initialisers live in arcoreapp.h, which is not
among the sources.  The spec says the session handle is null until it is "created on first
resume"; the constructor itself (line 30) only stores the asset manager. -/
def newARCoreApp : World :=
  { app :=
      { ar_session_ := none, ar_frame_ := none, install_requested_ := false,
        width_ := 1, height_ := 1, display_rotation_ := 0, dumpRequested := false },
    sessionDepthMode := none,
    trace := [] }

/-! ## Operations of `ARCoreApp` (arcoreapp.cc) -/

/-- `ARCoreApp::~ARCoreApp` (lines 32-37). -/
def Destructor (w : World) : World :=
  if w.app.ar_session_ ≠ none then
    let w := w.emit (.ArSession_destroy w.app.ar_session_)
    w.emit (.ArFrame_destroy w.app.ar_frame_)
  else w

/-- `ARCoreApp::OnPause` (lines 39-44). -/
def OnPause (w : World) : World :=
  let w := w.emit (.LOGI "OnPause()")
  if w.app.ar_session_ ≠ none then
    w.emit (.ArSession_pause w.app.ar_session_)
  else w

/-- `ARCoreApp::IsDepthSupported` (lines 164-169): `is_supported` starts at 0, the SDK call is
made on `ar_session_` whatever its value, and the `int32_t` is converted to `bool`. -/
def IsDepthSupported (w : World) (env : SdkAnswers) : Bool × World :=
  let is_supported : Int := 0
  let w := w.emit (.ArSession_isDepthModeSupported w.app.ar_session_ .AR_DEPTH_MODE_AUTOMATIC)
  let is_supported := env.isDepthModeSupported_out.getD is_supported
  (decide (is_supported ≠ 0), w)

/-- `ARCoreApp::ConfigureSession` (lines 171-185).  `ArSession_configure`, when it returns
`AR_SUCCESS`, makes the depth mode held by `ar_config` the depth mode of the session. -/
def ConfigureSession (w : World) (env : SdkAnswers) : Outcome :=
  let (is_depth_supported, w) := IsDepthSupported w env
  let w := w.emit (.ArConfig_create w.app.ar_session_)
  let ar_config := env.configCreate_out
  let (configDepthMode, w) :=
    if is_depth_supported then
      (ArDepthMode.AR_DEPTH_MODE_AUTOMATIC,
        w.emit (.ArConfig_setDepthMode w.app.ar_session_ ar_config .AR_DEPTH_MODE_AUTOMATIC))
    else
      (ArDepthMode.AR_DEPTH_MODE_DISABLED,
        w.emit (.ArConfig_setDepthMode w.app.ar_session_ ar_config .AR_DEPTH_MODE_DISABLED))
  CHECK ar_config.isSome w fun w =>
  let w := w.emit (.ArSession_configure w.app.ar_session_ ar_config)
  let w :=
    if env.configure_status = AR_SUCCESS then
      { w with sessionDepthMode := some configDepthMode }
    else w
  CHECK (decide (env.configure_status = AR_SUCCESS)) w fun w =>
  .returned (w.emit (.ArConfig_destroy ar_config))

/-- Lines 87-88 of `ARCoreApp::OnResume`: the code after the `if (ar_session_ == nullptr)`
block. -/
def OnResume_resumeSession (w : World) (env : SdkAnswers) : Outcome :=
  let w := w.emit (.ArSession_resume w.app.ar_session_)
  let status := env.resume_status
  CHECKANDTHROW (decide (status = AR_SUCCESS)) "Failed to resume AR session." w fun w =>
  .returned w

/-- `ARCoreApp::OnResume` (lines 46-89). -/
def OnResume (w : World) (env : SdkAnswers) : Outcome :=
  let w := w.emit (.LOGI "OnResume()")
  if w.app.ar_session_ = none then
    let user_requested_install := !w.app.install_requested_
    let w := w.emit (.ArCoreApk_requestInstall user_requested_install)
    CHECKANDTHROW (decide (env.requestInstall_status = AR_SUCCESS))
      "Please install Google Play Services for AR (ARCore)." w fun w =>
    match env.requestInstall_out with
    | .AR_INSTALL_STATUS_INSTALL_REQUESTED =>
      .returned { w with app := { w.app with install_requested_ := true } }
    | .AR_INSTALL_STATUS_INSTALLED =>
      let w := w.emit .ArSession_create
      let w := { w with app := { w.app with ar_session_ := env.sessionCreate_out } }
      CHECKANDTHROW (decide (env.sessionCreate_status = AR_SUCCESS))
        "Failed to create AR session." w fun w =>
      match ConfigureSession w env with
      | .aborted w => .aborted w
      | .threw w => .threw w
      | .returned w =>
        let w := w.emit (.ArFrame_create w.app.ar_session_)
        let w := { w with app := { w.app with ar_frame_ := env.frameCreate_out } }
        let w := w.emit (.ArSession_setDisplayGeometry w.app.ar_session_
          w.app.display_rotation_ w.app.width_ w.app.height_)
        OnResume_resumeSession w env
  else
    OnResume_resumeSession w env

/-- `ARCoreApp::OnDisplayGeometryChanged` (lines 99-109). -/
def OnDisplayGeometryChanged (w : World) (display_rotation width height : Int) : World :=
  let w := w.emit (.LOGI "OnSurfaceChanged(%d, %d)")
  let w := w.emit (.glViewport 0 0 width height)
  let w := { w with app := { w.app with display_rotation_ := display_rotation } }
  let w := { w with app := { w.app with width_ := width } }
  let w := { w with app := { w.app with height_ := height } }
  if w.app.ar_session_ ≠ none then
    w.emit (.ArSession_setDisplayGeometry w.app.ar_session_ display_rotation width height)
  else w

/-- `std::atomic<bool>::compare_exchange_strong(expected, desired)` on a flag whose current
value is `current`: returns whether the exchange happened and the new value of the flag. -/
def compare_exchange_strong (current expected desired : Bool) : Bool × Bool :=
  if current = expected then (true, desired) else (false, current)

/-- `ARCoreApp::RequestToDumpData` (lines 195-197). -/
def RequestToDumpData (w : World) : World :=
  { w with app := { w.app with dumpRequested := true } }

/-- Lines 203-205 of `ARCoreApp::DumpData`: open the file in append mode, insert the line,
close.  None of the three raises an exception. -/
def DumpData_appendLine (w : World) (env : SdkAnswers) : Outcome :=
  let w := w.emit (.ofstream_open_app dumpFile)
  let w := w.emit (.ofstream_write_line "test" env.ofstream_write_succeeds)
  .returned (w.emit .ofstream_close)

/-- `ARCoreApp::DumpData` (lines 199-206).  `std::filesystem::is_directory` and
`std::filesystem::create_directory` are called through their throwing overloads and
`DumpData` has no handler, so an exception raised by either leaves `DumpData` at that
call. -/
def DumpData (w : World) (env : SdkAnswers) : Outcome :=
  let w := w.emit (.fs_is_directory dumpDir)
  if env.is_directory_throws then .threw w
  else if !env.is_directory then
    let w := w.emit (.fs_create_directory dumpDir)
    if env.create_directory_throws then .threw w
    else DumpData_appendLine w env
  else DumpData_appendLine w env

/-- Lines 138-161 of `ARCoreApp::OnDrawFrame`: the code after the dump servicing. -/
def OnDrawFrame_render (w : World) (env : SdkAnswers) (ar_camera : Option Handle)
    (depthColorVisualizationEnabled : Bool) : Outcome :=
  let w := w.emit (.ArCamera_getViewMatrix w.app.ar_session_ ar_camera)
  let w := w.emit (.ArCamera_getProjectionMatrix w.app.ar_session_ ar_camera (1 / 10) 100)
  let w := w.emit (.BackgroundRenderer_Draw w.app.ar_session_ w.app.ar_frame_
    depthColorVisualizationEnabled)
  let w := w.emit (.ArCamera_getTrackingState w.app.ar_session_ ar_camera)
  let camera_tracking_state := env.trackingState_out
  let w := w.emit (.ArCamera_release ar_camera)
  if camera_tracking_state ≠ .AR_TRACKING_STATE_TRACKING then .returned w
  else
    let is_depth_supported : Int := 0
    let w := w.emit
      (.ArSession_isDepthModeSupported w.app.ar_session_ .AR_DEPTH_MODE_AUTOMATIC)
    let is_depth_supported := env.isDepthModeSupported_out.getD is_depth_supported
    if is_depth_supported ≠ 0 then
      .returned (w.emit
        (.DepthTexture_UpdateWithDepthImageOnGlThread w.app.ar_session_ w.app.ar_frame_))
    else .returned w

/-- `ARCoreApp::OnDrawFrame` (lines 111-162).  `BackgroundRenderer::Draw` and
`Texture::UpdateWithDepthImageOnGlThread` belong to other translation units and are recorded
as single calls.  There is no handler around `DumpData`, so an exception it raises leaves
`OnDrawFrame` at line 135. -/
def OnDrawFrame (w : World) (env : SdkAnswers)
    (depthColorVisualizationEnabled useDepthForOcclusion : Bool) : Outcome :=
  let _unused := useDepthForOcclusion
  let w := w.emit (.glClearColor (9 / 10) (9 / 10) (9 / 10) 1)
  let w := w.emit .glClear_depth_and_color
  let w := w.emit (.glEnable .GL_CULL_FACE)
  let w := w.emit (.glEnable .GL_DEPTH_TEST)
  if w.app.ar_session_ = none then .returned w
  else
    let w := w.emit .BackgroundRenderer_GetTextureId
    let w := w.emit (.ArSession_setCameraTextureName w.app.ar_session_ env.textureId)
    let w := w.emit (.ArSession_update w.app.ar_session_ w.app.ar_frame_)
    let w :=
      if env.update_status ≠ AR_SUCCESS then
        w.emit (.LOGE "HelloArApplication::OnDrawFrame ArSession_update error")
      else w
    let w := w.emit (.ArFrame_acquireCamera w.app.ar_session_ w.app.ar_frame_)
    let ar_camera := env.acquireCamera_out
    let expectedDumpFlag := true
    let (exchanged, flag) := compare_exchange_strong w.app.dumpRequested expectedDumpFlag false
    let w := { w with app := { w.app with dumpRequested := flag } }
    if exchanged then
      match DumpData w env with
      | .threw w => .threw w
      | .aborted w => .aborted w
      | .returned w => OnDrawFrame_render w env ar_camera depthColorVisualizationEnabled
    else OnDrawFrame_render w env ar_camera depthColorVisualizationEnabled

/-- `ARCoreApp::OnSettingsChange` (lines 187-191). -/
def OnSettingsChange (w : World) (env : SdkAnswers) : Outcome :=
  if w.app.ar_session_ ≠ none then
    ConfigureSession w env
  else .returned w

/-- `ARCoreApp::OnTouched` (line 193): empty body. -/
def OnTouched (w : World) (x y : ℚ) : World :=
  let _unused := (x, y)
  w

/-! ## Auxiliary definitions used in the statements -/

/-- The world `w` with the session pointer of the adapter set to `nullptr`. -/
def withNullSession (w : World) : World :=
  { w with app := { w.app with ar_session_ := none } }

/-- The calls that follow the first `LOGE` in a call sequence (empty if there is none). -/
def afterErrorLog : List Event → List Event
  | [] => []
  | Event.LOGE _ :: rest => rest
  | _ :: rest => afterErrorLog rest

/-- Whether `DumpData` is left by an exception under the answers `env`. -/
def dumpThrows (env : SdkAnswers) : Bool :=
  env.is_directory_throws || (!env.is_directory && env.create_directory_throws)

/-- Closed form of the calls issued by one `DumpData`; `DumpData_eq` proves it equal to what
the embedding of `DumpData` records. -/
def dumpCalls (env : SdkAnswers) : List Event :=
  [Event.fs_is_directory dumpDir] ++
  (if env.is_directory_throws then []
    else
      (if env.is_directory then [] else [Event.fs_create_directory dumpDir]) ++
      (if !env.is_directory && env.create_directory_throws then []
        else
          [Event.ofstream_open_app dumpFile,
            Event.ofstream_write_line "test" env.ofstream_write_succeeds,
            Event.ofstream_close]))

/-- Closed form of the calls issued by one `OnDrawFrame` on a non-null session, as a function
of the adapter fields and the answers; `OnDrawFrame_eq` proves it equal to what the embedding
of `OnDrawFrame` records. -/
def drawFrameCalls (app : ARCoreApp) (env : SdkAnswers)
    (depthColorVisualizationEnabled : Bool) : List Event :=
  [Event.glClearColor (9 / 10) (9 / 10) (9 / 10) 1, Event.glClear_depth_and_color,
    Event.glEnable .GL_CULL_FACE, Event.glEnable .GL_DEPTH_TEST,
    Event.BackgroundRenderer_GetTextureId,
    Event.ArSession_setCameraTextureName app.ar_session_ env.textureId,
    Event.ArSession_update app.ar_session_ app.ar_frame_] ++
  (if env.update_status = AR_SUCCESS then []
    else [Event.LOGE "HelloArApplication::OnDrawFrame ArSession_update error"]) ++
  [Event.ArFrame_acquireCamera app.ar_session_ app.ar_frame_] ++
  (if app.dumpRequested then dumpCalls env else []) ++
  (if app.dumpRequested && dumpThrows env then []
    else
      [Event.ArCamera_getViewMatrix app.ar_session_ env.acquireCamera_out,
        Event.ArCamera_getProjectionMatrix app.ar_session_ env.acquireCamera_out (1 / 10) 100,
        Event.BackgroundRenderer_Draw app.ar_session_ app.ar_frame_
          depthColorVisualizationEnabled,
        Event.ArCamera_getTrackingState app.ar_session_ env.acquireCamera_out,
        Event.ArCamera_release env.acquireCamera_out] ++
      (if env.trackingState_out = .AR_TRACKING_STATE_TRACKING then
        [Event.ArSession_isDepthModeSupported app.ar_session_ .AR_DEPTH_MODE_AUTOMATIC] ++
          (if env.isDepthModeSupported_out.getD 0 = 0 then []
            else [Event.DepthTexture_UpdateWithDepthImageOnGlThread app.ar_session_
              app.ar_frame_])
        else []))

/-- A world in which the session and the frame exist (after a successful `OnResume`). -/
def runningWorld : World :=
  { app :=
      { ar_session_ := some 1, ar_frame_ := some 2, install_requested_ := false,
        width_ := 1080, height_ := 1920, display_rotation_ := 0, dumpRequested := false },
    sessionDepthMode := some .AR_DEPTH_MODE_AUTOMATIC,
    trace := [] }

/-- Answers of an SDK and a platform on which every call succeeds, the camera is tracking,
depth is supported and the dump directory does not exist yet. -/
def successAnswers : SdkAnswers :=
  { requestInstall_status := 0
    requestInstall_out := .AR_INSTALL_STATUS_INSTALLED
    sessionCreate_status := 0
    sessionCreate_out := some 1
    frameCreate_out := some 2
    resume_status := 0
    update_status := 0
    acquireCamera_out := some 3
    trackingState_out := .AR_TRACKING_STATE_TRACKING
    isDepthModeSupported_out := some 1
    configCreate_out := some 4
    configure_status := 0
    is_directory_throws := false
    is_directory := false
    create_directory_throws := false
    ofstream_write_succeeds := true
    textureId := 7 }

/-- The same answers, except that `ArSession_update` returns the error `AR_ERROR_FATAL`
(-2). -/
def updateFailureAnswers : SdkAnswers :=
  { successAnswers with update_status := -2 }

/-- The same answers, except that `std::filesystem::is_directory` throws
`std::filesystem::filesystem_error`. -/
def filesystemFailureAnswers : SdkAnswers :=
  { successAnswers with is_directory_throws := true }

/-- The same answers, except that `ArCoreApk_requestInstall` reports that installation was
requested. -/
def installRequestedAnswers : SdkAnswers :=
  { successAnswers with requestInstall_out := .AR_INSTALL_STATUS_INSTALL_REQUESTED }

/-! ## Lemmas on binary32 rounding -/

theorem roundHalfEven_intCast (n : ℤ) : roundHalfEven (n : ℚ) = n := by
  unfold roundHalfEven
  simp

theorem roundHalfEven_of_lt (t : ℚ) (n : ℤ) (h1 : (n : ℚ) - 1 / 2 < t)
    (h2 : t < n + 1 / 2) : roundHalfEven t = n := by
  unfold roundHalfEven
  by_cases h : (n : ℚ) ≤ t
  · have hf : ⌊t⌋ = n := by
      rw [Int.floor_eq_iff]
      constructor
      · exact h
      · linarith
    simp only [hf]
    rw [if_pos (by linarith)]
  · have hf : ⌊t⌋ = n - 1 := by
      rw [Int.floor_eq_iff]
      push_cast
      constructor
      · linarith
      · linarith
    simp only [hf]
    push_cast
    rw [if_neg (by linarith), if_pos (by linarith)]
    ring

theorem log_two_eq (r : ℚ) (e : ℤ) (h1 : (2 : ℚ) ^ e ≤ r) (h2 : r < (2 : ℚ) ^ (e + 1)) :
    Int.log 2 r = e := by
  have hpos : 0 < r := lt_of_lt_of_le (by positivity) h1
  have ha : e ≤ Int.log 2 r :=
    (Int.zpow_le_iff_le_log (by norm_num) hpos).mp (by exact_mod_cast h1)
  have hb : Int.log 2 r < e + 1 :=
    (Int.lt_zpow_iff_log_lt (by norm_num) hpos).mp (by exact_mod_cast h2)
  omega

theorem roundBinary32_eval (q : ℚ) (e n : ℤ) (he : -126 ≤ e) (h1 : (2 : ℚ) ^ e ≤ |q|)
    (h2 : |q| < (2 : ℚ) ^ (e + 1)) (hn : roundHalfEven (q / 2 ^ (e - 23)) = n) :
    roundBinary32 q = n * 2 ^ (e - 23) := by
  unfold roundBinary32 ulpExponent
  rw [log_two_eq |q| e h1 h2, max_eq_left he, hn]

theorem roundBinary32_zero : roundBinary32 0 = 0 := by
  unfold roundBinary32
  simp [roundHalfEven]

theorem roundHalfEven_scaled (m e u : ℤ) (hu : u ≤ e) :
    (roundHalfEven ((m : ℚ) * 2 ^ e / 2 ^ u) : ℚ) * 2 ^ u = (m : ℚ) * 2 ^ e := by
  obtain ⟨k, hk⟩ : ∃ k : ℕ, e = u + k := ⟨(e - u).toNat, by omega⟩
  have h2 : (2 : ℚ) ^ e = 2 ^ u * 2 ^ k := by
    rw [hk, zpow_add₀ (by norm_num), zpow_natCast]
  have hdiv : (m : ℚ) * 2 ^ e / 2 ^ u = ((m * 2 ^ k : ℤ) : ℚ) := by
    rw [h2]
    push_cast
    field_simp
    ring
  rw [hdiv, roundHalfEven_intCast, h2]
  push_cast
  ring

/-- A value with a 24-bit significand and an exponent in the binary32 range is returned
unchanged by the rounding. -/
theorem roundBinary32_of_representable (m e : ℤ) (hm : |m| < 2 ^ 24) (he : -149 ≤ e) :
    roundBinary32 ((m : ℚ) * 2 ^ e) = (m : ℚ) * 2 ^ e := by
  by_cases hm0 : m = 0
  · simp [hm0, roundBinary32_zero]
  · have hpos : (0 : ℚ) < |(m : ℚ) * 2 ^ e| := by
      apply abs_pos.mpr
      apply mul_ne_zero
      · exact_mod_cast hm0
      · positivity
    have hmq : |(m : ℚ)| < 2 ^ 24 := by
      rw [← Int.cast_abs]
      exact_mod_cast hm
    have hlt : |(m : ℚ) * 2 ^ e| < (2 : ℚ) ^ (24 + e) := by
      rw [abs_mul, abs_of_pos (by positivity : (0 : ℚ) < 2 ^ e), zpow_add₀ (by norm_num)]
      apply mul_lt_mul_of_pos_right _ (by positivity)
      exact_mod_cast hmq
    have hlog : Int.log 2 |(m : ℚ) * 2 ^ e| < 24 + e :=
      (Int.lt_zpow_iff_log_lt (by norm_num) hpos).mp (by exact_mod_cast hlt)
    have hu : ulpExponent ((m : ℚ) * 2 ^ e) ≤ e := by
      unfold ulpExponent
      have := max_le (show Int.log 2 |(m : ℚ) * 2 ^ e| ≤ e + 23 by omega)
        (show (-126 : ℤ) ≤ e + 23 by omega)
      omega
    unfold roundBinary32
    exact roundHalfEven_scaled m e _ hu

/-- The rounding moves a value by at most half the spacing of binary32 values around it. -/
theorem roundBinary32_error (q : ℚ) :
    |roundBinary32 q - q| ≤ 2 ^ ulpExponent q / 2 := by
  have hpos : (0 : ℚ) < 2 ^ ulpExponent q := by positivity
  have hr : |(roundHalfEven (q / 2 ^ ulpExponent q) : ℚ) - q / 2 ^ ulpExponent q| ≤ 1 / 2 := by
    generalize q / 2 ^ ulpExponent q = t
    unfold roundHalfEven
    have h1 := Int.floor_le t
    have h2 := Int.lt_floor_add_one t
    simp only
    split_ifs with ha hb hc
    · rw [abs_le]
      constructor <;> linarith
    · rw [abs_le]
      push_cast
      constructor <;> linarith
    · rw [abs_le]
      constructor <;> linarith
    · rw [abs_le]
      push_cast
      constructor <;> linarith
  unfold roundBinary32
  have heq : (roundHalfEven (q / 2 ^ ulpExponent q) : ℚ) * 2 ^ ulpExponent q - q =
      ((roundHalfEven (q / 2 ^ ulpExponent q) : ℚ) - q / 2 ^ ulpExponent q) *
        2 ^ ulpExponent q := by
    field_simp
  rw [heq, abs_mul, abs_of_pos hpos]
  calc |(roundHalfEven (q / 2 ^ ulpExponent q) : ℚ) - q / 2 ^ ulpExponent q| *
        2 ^ ulpExponent q ≤ 1 / 2 * 2 ^ ulpExponent q :=
        mul_le_mul_of_nonneg_right hr hpos.le
    _ = 2 ^ ulpExponent q / 2 := by ring

/-! ## Lemmas on the texture transform -/

theorem make_mat3_entries (p : Fin 9 → ℚ) :
    make_mat3 p = !![p 0, p 3, p 6; p 1, p 4, p 7; p 2, p 5, p 8] := by
  ext i j
  fin_cases i <;> fin_cases j <;> rfl

theorem GetTextureTransformMatrix_entries (sdk : (Fin 6 → ℚ) → (Fin 6 → ℚ)) :
    GetTextureTransformMatrix sdk =
      !![fsub (sdk ndcBasis 2) (sdk ndcBasis 0), fsub (sdk ndcBasis 4) (sdk ndcBasis 0),
          sdk ndcBasis 0;
         fsub (sdk ndcBasis 3) (sdk ndcBasis 1), fsub (sdk ndcBasis 5) (sdk ndcBasis 1),
          sdk ndcBasis 1;
         0, 0, 1] := by
  unfold GetTextureTransformMatrix
  rw [make_mat3_entries]
  rfl

theorem mulVec_three (a b c d e f g h k x y z : ℚ) :
    (!![a, b, c; d, e, f; g, h, k]).mulVec ![x, y, z] =
      ![a * x + b * y + c * z, d * x + e * y + f * z, g * x + h * y + k * z] := by
  funext i
  fin_cases i <;> simp [Matrix.mulVec, Matrix.dotProduct, Fin.sum_univ_three, add_assoc]

theorem pointwiseTransform_ndcBasis (T : ℚ × ℚ → ℚ × ℚ) :
    pointwiseTransform T ndcBasis 0 = (T (0, 0)).1 ∧
      pointwiseTransform T ndcBasis 1 = (T (0, 0)).2 ∧
      pointwiseTransform T ndcBasis 2 = (T (1, 0)).1 ∧
      pointwiseTransform T ndcBasis 3 = (T (1, 0)).2 ∧
      pointwiseTransform T ndcBasis 4 = (T (0, 1)).1 ∧
      pointwiseTransform T ndcBasis 5 = (T (0, 1)).2 :=
  ⟨rfl, rfl, rfl, rfl, rfl, rfl⟩

theorem affineMap_plane_decomp (T : (ℚ × ℚ) →ᵃ[ℚ] (ℚ × ℚ)) (x y : ℚ) :
    T (x, y) = x • (T (1, 0) - T (0, 0)) + y • (T (0, 1) - T (0, 0)) + T (0, 0) := by
  have h1 : T (x, y) = T.linear ((x, y) -ᵥ ((0, 0) : ℚ × ℚ)) +ᵥ T (0, 0) := by
    rw [AffineMap.linearMap_vsub, vsub_vadd]
  have h2 : ((x, y) : ℚ × ℚ) -ᵥ ((0, 0) : ℚ × ℚ) =
      x • (((1, 0) : ℚ × ℚ) -ᵥ ((0, 0) : ℚ × ℚ)) + y • (((0, 1) : ℚ × ℚ) -ᵥ ((0, 0) : ℚ × ℚ)) := by
    ext <;> simp
  rw [h1, h2, map_add, map_smul, map_smul, AffineMap.linearMap_vsub, AffineMap.linearMap_vsub]
  simp only [vsub_eq_sub, vadd_eq_add]

theorem affineMap_plane_fst (T : (ℚ × ℚ) →ᵃ[ℚ] (ℚ × ℚ)) (x y : ℚ) :
    (T (x, y)).1 = x * ((T (1, 0)).1 - (T (0, 0)).1) + y * ((T (0, 1)).1 - (T (0, 0)).1) +
      (T (0, 0)).1 := by
  have h := congrArg Prod.fst (affineMap_plane_decomp T x y)
  simpa using h

theorem affineMap_plane_snd (T : (ℚ × ℚ) →ᵃ[ℚ] (ℚ × ℚ)) (x y : ℚ) :
    (T (x, y)).2 = x * ((T (1, 0)).2 - (T (0, 0)).2) + y * ((T (0, 1)).2 - (T (0, 0)).2) +
      (T (0, 0)).2 := by
  have h := congrArg Prod.snd (affineMap_plane_decomp T x y)
  simpa using h

/-- An affine map of the plane is invertible exactly when the images of the two unit
directions are linearly independent. -/
theorem affineMap_bijective_iff (T : (ℚ × ℚ) →ᵃ[ℚ] (ℚ × ℚ)) :
    Function.Bijective T ↔
      ((T (1, 0)).1 - (T (0, 0)).1) * ((T (0, 1)).2 - (T (0, 0)).2) -
        ((T (0, 1)).1 - (T (0, 0)).1) * ((T (1, 0)).2 - (T (0, 0)).2) ≠ 0 := by
  have hf := affineMap_plane_fst T
  have hg := affineMap_plane_snd T
  generalize (T (1, 0)).1 - (T (0, 0)).1 = u1 at hf ⊢
  generalize (T (1, 0)).2 - (T (0, 0)).2 = u2 at hg ⊢
  generalize (T (0, 1)).1 - (T (0, 0)).1 = v1 at hf ⊢
  generalize (T (0, 1)).2 - (T (0, 0)).2 = v2 at hg ⊢
  constructor
  · rintro ⟨hinj, -⟩ hd
    have key : ∀ x y : ℚ, x * u1 + y * v1 = 0 → x * u2 + y * v2 = 0 → x = 0 ∧ y = 0 := by
      intro x y e1 e2
      have hxy : T (x, y) = T (0, 0) := by
        ext
        · rw [hf x y]; linarith
        · rw [hg x y]; linarith
      have h := hinj hxy
      exact ⟨congrArg Prod.fst h, congrArg Prod.snd h⟩
    by_cases hu1 : u1 = 0
    · by_cases hv1 : v1 = 0
      · by_cases hu2 : u2 = 0
        · have h := key 1 0 (by rw [hu1]; ring) (by rw [hu2]; ring)
          exact one_ne_zero h.1
        · have h := key v2 (-u2) (by rw [hu1, hv1]; ring) (by ring)
          exact hu2 (neg_eq_zero.mp h.2)
      · have h := key v1 (-u1) (by ring) (by linarith)
        exact hv1 h.1
    · have h := key v1 (-u1) (by ring) (by linarith)
      exact hu1 (neg_eq_zero.mp h.2)
  · intro hd
    constructor
    · rintro ⟨x, y⟩ ⟨x2, y2⟩ h
      have e1 : (x - x2) * u1 + (y - y2) * v1 = 0 := by
        have h1 := congrArg Prod.fst h
        rw [hf x y, hf x2 y2] at h1
        linarith
      have e2 : (x - x2) * u2 + (y - y2) * v2 = 0 := by
        have h2 := congrArg Prod.snd h
        rw [hg x y, hg x2 y2] at h2
        linarith
      have hx : (x - x2) * (u1 * v2 - v1 * u2) = 0 := by linear_combination v2 * e1 - v1 * e2
      have hy : (y - y2) * (u1 * v2 - v1 * u2) = 0 := by linear_combination u1 * e2 - u2 * e1
      have hx0 : x - x2 = 0 := (mul_eq_zero.mp hx).resolve_right hd
      have hy0 : y - y2 = 0 := (mul_eq_zero.mp hy).resolve_right hd
      ext
      · simpa using sub_eq_zero.mp hx0
      · simpa using sub_eq_zero.mp hy0
    · rintro ⟨a, b⟩
      refine ⟨(((a - (T (0, 0)).1) * v2 - (b - (T (0, 0)).2) * v1) / (u1 * v2 - v1 * u2),
        (u1 * (b - (T (0, 0)).2) - u2 * (a - (T (0, 0)).1)) / (u1 * v2 - v1 * u2)), ?_⟩
      ext
      · rw [hf]
        simp only
        field_simp
        ring
      · rw [hg]
        simp only
        field_simp
        ring

theorem collinear_triple_iff (o p q : ℚ × ℚ) :
    Collinear ℚ ({o, p, q} : Set (ℚ × ℚ)) ↔
      (p.1 - o.1) * (q.2 - o.2) - (q.1 - o.1) * (p.2 - o.2) = 0 := by
  have ho : o ∈ ({o, p, q} : Set (ℚ × ℚ)) := by simp
  rw [collinear_iff_of_mem ho]
  constructor
  · rintro ⟨v, hv⟩
    obtain ⟨r, hr⟩ := hv p (by simp)
    obtain ⟨s, hs⟩ := hv q (by simp)
    rw [hr, hs]
    simp
    ring
  · intro h
    by_cases hp : p = o
    · refine ⟨q - o, ?_⟩
      intro x hx
      simp only [Set.mem_insert_iff, Set.mem_singleton_iff] at hx
      rcases hx with rfl | rfl | rfl
      · exact ⟨0, by simp⟩
      · exact ⟨0, by simp [hp]⟩
      · exact ⟨1, by simp⟩
    · refine ⟨p - o, ?_⟩
      intro x hx
      simp only [Set.mem_insert_iff, Set.mem_singleton_iff] at hx
      rcases hx with rfl | rfl | rfl
      · exact ⟨0, by simp⟩
      · exact ⟨1, by simp⟩
      · by_cases h1 : p.1 - o.1 = 0
        · have h2 : p.2 - o.2 ≠ 0 := by
            intro h2
            apply hp
            ext
            · linarith
            · linarith
          refine ⟨(x.2 - o.2) / (p.2 - o.2), ?_⟩
          rw [h1] at h
          have hx1 : x.1 - o.1 = 0 := by
            have h3 : (x.1 - o.1) * (p.2 - o.2) = 0 := by linarith
            rcases mul_eq_zero.mp h3 with h4 | h4
            · exact h4
            · exact absurd h4 h2
          ext
          · simp [h1]; linarith
          · simp; field_simp
        · refine ⟨(x.1 - o.1) / (p.1 - o.1), ?_⟩
          ext
          · simp; field_simp
          · simp; field_simp; linarith

theorem det_entries (a b c d e f : ℚ) :
    (!![a, b, c; d, e, f; 0, 0, 1]).det = a * e - b * d := by
  rw [Matrix.det_fin_three]
  simp

theorem planeAffineMap_apply (o u v p : ℚ × ℚ) :
    planeAffineMap o u v p = p.1 • u + p.2 • v + o := rfl

theorem unrotatedMap_points :
    unrotatedMap (0, 0) = (1 / 2, 1 / 2) ∧ unrotatedMap (1, 0) = (1, 1 / 2) ∧
      unrotatedMap (0, 1) = (1 / 2, 0) := by
  unfold unrotatedMap
  refine ⟨?_, ?_, ?_⟩ <;>
    · rw [planeAffineMap_apply]
      ext <;> norm_num

theorem unrotatedMap_subtractionsExact :
    subtractionsExact (pointwiseTransform unrotatedMap ndcBasis) := by
  obtain ⟨h0, h1, h2, h3, h4, h5⟩ := pointwiseTransform_ndcBasis unrotatedMap
  obtain ⟨ho, hp, hq⟩ := unrotatedMap_points
  unfold subtractionsExact subtractionExact fsub maxBinary32
  rw [h0, h1, h2, h3, h4, h5, ho, hp, hq]
  have e1 := roundBinary32_of_representable 1 (-1) (by norm_num) (by norm_num)
  have e2 := roundBinary32_of_representable (-1) (-1) (by norm_num) (by norm_num)
  norm_num at e1 e2
  refine ⟨⟨?_, ?_⟩, ⟨?_, ?_⟩, ⟨?_, ?_⟩, ⟨?_, ?_⟩⟩
  · norm_num [abs_of_pos]
  · norm_num
    exact e1
  · norm_num
  · norm_num
    exact roundBinary32_zero
  · norm_num
  · norm_num
    exact roundBinary32_zero
  · norm_num [abs_of_pos]
  · norm_num
    exact e2

theorem roundingMap_points :
    roundingMap (0, 0) = (13421773 / 2 ^ 27, 13421773 / 2 ^ 26) ∧
      roundingMap (1, 0) = (11744051 / 2 ^ 24, 13421773 / 2 ^ 26) ∧
      roundingMap (0, 1) = (13421773 / 2 ^ 27, 15099494 / 2 ^ 24) := by
  unfold roundingMap
  refine ⟨?_, ?_, ?_⟩ <;>
    · rw [planeAffineMap_apply]
      ext <;> norm_num

theorem fsub_seven_tenths_one_tenth :
    fsub (11744051 / 2 ^ 24) (13421773 / 2 ^ 27) = 10066329 / 2 ^ 24 := by
  unfold fsub
  rw [roundBinary32_eval _ (-1) 10066329 (by norm_num) (by norm_num [abs_of_pos])
    (by norm_num [abs_of_pos]) (roundHalfEven_of_lt _ _ (by norm_num) (by norm_num))]
  norm_num

theorem nearlyCollinearSdk_differences :
    fsub (1 / 2) (1 / 2 ^ 31) = 1 / 2 ∧ fsub (1 / 2) 0 = 1 / 2 ∧
      fsub 1 (1 / 2 ^ 31) = 1 ∧ fsub 1 0 = 1 := by
  have e1 : fsub (1 / 2) (1 / 2 ^ 31) = 1 / 2 := by
    unfold fsub
    rw [roundBinary32_eval _ (-2) (2 ^ 24) (by norm_num) (by norm_num [abs_of_pos])
      (by norm_num [abs_of_pos]) (roundHalfEven_of_lt _ _ (by norm_num) (by norm_num))]
    norm_num
  have e3 : fsub 1 (1 / 2 ^ 31) = 1 := by
    unfold fsub
    rw [roundBinary32_eval _ (-1) (2 ^ 24) (by norm_num) (by norm_num [abs_of_pos])
      (by norm_num [abs_of_pos]) (roundHalfEven_of_lt _ _ (by norm_num) (by norm_num))]
    norm_num
  have r1 := roundBinary32_of_representable 1 (-1) (by norm_num) (by norm_num)
  have r2 := roundBinary32_of_representable 1 0 (by norm_num) (by norm_num)
  refine ⟨e1, ?_, e3, ?_⟩
  · unfold fsub
    norm_num at r1 ⊢
    exact r1
  · unfold fsub
    norm_num at r2 ⊢
    exact r2

theorem nearlyCollinearSdk_points :
    nearlyCollinearSdk ndcBasis 0 = 1 / 2 ^ 31 ∧ nearlyCollinearSdk ndcBasis 1 = 0 ∧
      nearlyCollinearSdk ndcBasis 2 = 1 / 2 ∧ nearlyCollinearSdk ndcBasis 3 = 1 / 2 ∧
      nearlyCollinearSdk ndcBasis 4 = 1 ∧ nearlyCollinearSdk ndcBasis 5 = 1 :=
  ⟨rfl, rfl, rfl, rfl, rfl, rfl⟩

theorem GetTextureTransformMatrix_exact (sdk : (Fin 6 → ℚ) → (Fin 6 → ℚ))
    (hexact : subtractionsExact (sdk ndcBasis)) :
    GetTextureTransformMatrix sdk =
      !![sdk ndcBasis 2 - sdk ndcBasis 0, sdk ndcBasis 4 - sdk ndcBasis 0, sdk ndcBasis 0;
         sdk ndcBasis 3 - sdk ndcBasis 1, sdk ndcBasis 5 - sdk ndcBasis 1, sdk ndcBasis 1;
         0, 0, 1] := by
  obtain ⟨⟨-, e1⟩, ⟨-, e2⟩, ⟨-, e3⟩, ⟨-, e4⟩⟩ := hexact
  rw [GetTextureTransformMatrix_entries, e1, e2, e3, e4]

/-! ## Theorems on the texture transform -/

/-- C1: whatever three points the SDK coordinate transform returns for the NDC basis, the
returned matrix times the homogeneous NDC origin (0, 0, 1) is (o.x, o.y, 1), where o is the
first returned point (the SDK-reported texture-space origin). -/
theorem GetTextureTransformMatrix_maps_origin (sdk : (Fin 6 → ℚ) → (Fin 6 → ℚ)) :
    (GetTextureTransformMatrix sdk).mulVec ![0, 0, 1] =
      ![sdk ndcBasis 0, sdk ndcBasis 1, 1] := by
  rw [GetTextureTransformMatrix_entries, mulVec_three]
  simp

/-- C2 as stated fails: for the affine map through the binary32 points o = (0.1f, 0.2f),
p1 = (0.7f, 0.2f), p2 = (0.1f, 0.9f), the subtraction 0.7f - 0.1f is rounded, and the returned
matrix sends (1, 0, 1) to x = 93952405 / 2^27, whereas p1.x = 93952408 / 2^27. -/
theorem GetTextureTransformMatrix_misses_affine_sdk_by_rounding :
    (GetTextureTransformMatrix (pointwiseTransform roundingMap)).mulVec ![1, 0, 1] =
        ![93952405 / 2 ^ 27, 13421773 / 2 ^ 26, 1] ∧
      ![(roundingMap (1, 0)).1, (roundingMap (1, 0)).2, 1] =
        ![93952408 / 2 ^ 27, 13421773 / 2 ^ 26, 1] ∧
      (GetTextureTransformMatrix (pointwiseTransform roundingMap)).mulVec ![1, 0, 1] ≠
        ![(roundingMap (1, 0)).1, (roundingMap (1, 0)).2, 1] := by
  obtain ⟨h0, h1, h2, h3, h4, h5⟩ := pointwiseTransform_ndcBasis roundingMap
  obtain ⟨ho, hp, hq⟩ := roundingMap_points
  have hM : (GetTextureTransformMatrix (pointwiseTransform roundingMap)).mulVec ![1, 0, 1] =
      ![93952405 / 2 ^ 27, 13421773 / 2 ^ 26, 1] := by
    rw [GetTextureTransformMatrix_entries, mulVec_three, h0, h1, h2, h3, h4, h5, ho, hp, hq]
    simp only [fsub_seven_tenths_one_tenth]
    have hz : fsub (13421773 / 2 ^ 26) (13421773 / 2 ^ 26) = 0 := by
      unfold fsub
      rw [sub_self, roundBinary32_zero]
    rw [hz]
    funext i
    fin_cases i <;> norm_num
  have hT : ![(roundingMap (1, 0)).1, (roundingMap (1, 0)).2, 1] =
      ![(93952408 / 2 ^ 27 : ℚ), 13421773 / 2 ^ 26, 1] := by
    rw [hp]
    funext i
    fin_cases i <;> norm_num
  refine ⟨hM, hT, ?_⟩
  rw [hM, hT]
  intro h
  have h0 := congrFun h 0
  norm_num at h0

/-- C2 amended: when the SDK transform acts on points by an affine map T of the plane and
the four float subtractions of lines 225-229 are exact on the transformed points (each true
difference is finite and is what the subtraction computes), the returned matrix M satisfies M * (x, y, 1) = (T(x,y).x, T(x,y).y, 1) for every NDC point
(x, y); and M sends (1, 0) and (0, 1) to the second and third SDK-transformed points. -/
theorem GetTextureTransformMatrix_agrees_with_affine_sdk_when_exact
    (T : (ℚ × ℚ) →ᵃ[ℚ] (ℚ × ℚ)) (x y : ℚ)
    (hexact : subtractionsExact (pointwiseTransform T ndcBasis)) :
    (GetTextureTransformMatrix (pointwiseTransform T)).mulVec ![x, y, 1] =
        ![(T (x, y)).1, (T (x, y)).2, 1] ∧
      (GetTextureTransformMatrix (pointwiseTransform T)).mulVec ![1, 0, 1] =
        ![pointwiseTransform T ndcBasis 2, pointwiseTransform T ndcBasis 3, 1] ∧
      (GetTextureTransformMatrix (pointwiseTransform T)).mulVec ![0, 1, 1] =
        ![pointwiseTransform T ndcBasis 4, pointwiseTransform T ndcBasis 5, 1] := by
  rw [GetTextureTransformMatrix_exact _ hexact]
  refine ⟨?_, ?_, ?_⟩
  · obtain ⟨h0, h1, h2, h3, h4, h5⟩ := pointwiseTransform_ndcBasis T
    rw [mulVec_three, h0, h1, h2, h3, h4, h5, affineMap_plane_decomp T x y]
    funext i
    fin_cases i
    · simp; ring
    · simp; ring
    · simp
  · rw [mulVec_three]
    simp
  · rw [mulVec_three]
    simp

/-- Witness for the amended C2: the unrotated NDC-to-texture mapping at the point
(1/3, -2/5). -/
theorem GetTextureTransformMatrix_agrees_with_affine_sdk_when_exact_witness :
    subtractionsExact (pointwiseTransform unrotatedMap ndcBasis) ∧
    ((GetTextureTransformMatrix (pointwiseTransform unrotatedMap)).mulVec
          ![1 / 3, -2 / 5, 1] =
        ![(unrotatedMap (1 / 3, -2 / 5)).1, (unrotatedMap (1 / 3, -2 / 5)).2, 1] ∧
      (GetTextureTransformMatrix (pointwiseTransform unrotatedMap)).mulVec ![1, 0, 1] =
        ![pointwiseTransform unrotatedMap ndcBasis 2,
          pointwiseTransform unrotatedMap ndcBasis 3, 1] ∧
      (GetTextureTransformMatrix (pointwiseTransform unrotatedMap)).mulVec ![0, 1, 1] =
        ![pointwiseTransform unrotatedMap ndcBasis 4,
          pointwiseTransform unrotatedMap ndcBasis 5, 1]) :=
  ⟨unrotatedMap_subtractionsExact,
    GetTextureTransformMatrix_agrees_with_affine_sdk_when_exact unrotatedMap (1 / 3) (-2 / 5)
      unrotatedMap_subtractionsExact⟩

/-- C3 as stated fails: the SDK points o = (2^(-31), 0), p1 = (1/2, 1/2), p2 = (1, 1) are not
collinear and the 2x2 determinant of p1 - o and p2 - o is -1 / 2^32, yet the rounded
differences stored in the matrix are (1/2, 1/2) and (1, 1), so the returned matrix has
determinant 0 and is not invertible. -/
theorem GetTextureTransformMatrix_singular_on_noncollinear_points :
    ¬ Collinear ℚ ({(nearlyCollinearSdk ndcBasis 0, nearlyCollinearSdk ndcBasis 1),
        (nearlyCollinearSdk ndcBasis 2, nearlyCollinearSdk ndcBasis 3),
        (nearlyCollinearSdk ndcBasis 4, nearlyCollinearSdk ndcBasis 5)} : Set (ℚ × ℚ)) ∧
      (!![nearlyCollinearSdk ndcBasis 2 - nearlyCollinearSdk ndcBasis 0,
            nearlyCollinearSdk ndcBasis 4 - nearlyCollinearSdk ndcBasis 0;
          nearlyCollinearSdk ndcBasis 3 - nearlyCollinearSdk ndcBasis 1,
            nearlyCollinearSdk ndcBasis 5 - nearlyCollinearSdk ndcBasis 1]).det =
        -1 / 2 ^ 32 ∧
      (GetTextureTransformMatrix nearlyCollinearSdk).det = 0 ∧
      ¬ IsUnit (GetTextureTransformMatrix nearlyCollinearSdk) := by
  obtain ⟨h0, h1, h2, h3, h4, h5⟩ := nearlyCollinearSdk_points
  obtain ⟨d1, d2, d3, d4⟩ := nearlyCollinearSdk_differences
  have hdet : (GetTextureTransformMatrix nearlyCollinearSdk).det = 0 := by
    rw [GetTextureTransformMatrix_entries, det_entries, h0, h1, h2, h3, h4, h5, d1, d2, d3, d4]
    norm_num
  refine ⟨?_, ?_, hdet, ?_⟩
  · rw [collinear_triple_iff, h0, h1, h2, h3, h4, h5]
    norm_num
  · rw [Matrix.det_fin_two, h0, h1, h2, h3, h4, h5]
    norm_num
  · rw [Matrix.isUnit_iff_isUnit_det, hdet]
    simp

/-- C3 amended: for every triple of SDK-transformed points o, p1, p2 the returned matrix has
third row (0, 0, 1), so the plane map it induces sends collinear points to collinear points;
its determinant is the 2x2 determinant of the stored basis vectors, the float differences
fl(p1 - o) and fl(p2 - o); and it is invertible exactly when that determinant is non-zero.
When the SDK acts by an affine map T and the four float subtractions are exact on its
points, the determinant is the 2x2 determinant of p1 - o and p2 - o, and the matrix is
invertible exactly when o, p1, p2 are not collinear, which is exactly when T is
invertible. -/
theorem GetTextureTransformMatrix_affine_and_invertible_when_exact
    (sdk : (Fin 6 → ℚ) → (Fin 6 → ℚ)) (T : (ℚ × ℚ) →ᵃ[ℚ] (ℚ × ℚ))
    (hexact : subtractionsExact (pointwiseTransform T ndcBasis)) :
    (GetTextureTransformMatrix sdk 2 0 = 0 ∧ GetTextureTransformMatrix sdk 2 1 = 0 ∧
        GetTextureTransformMatrix sdk 2 2 = 1) ∧
      (∀ a b c : ℚ × ℚ, Collinear ℚ ({a, b, c} : Set (ℚ × ℚ)) →
        Collinear ℚ ({applyToUV (GetTextureTransformMatrix sdk) a,
          applyToUV (GetTextureTransformMatrix sdk) b,
          applyToUV (GetTextureTransformMatrix sdk) c} : Set (ℚ × ℚ))) ∧
      (GetTextureTransformMatrix sdk).det =
        (!![fsub (sdk ndcBasis 2) (sdk ndcBasis 0), fsub (sdk ndcBasis 4) (sdk ndcBasis 0);
            fsub (sdk ndcBasis 3) (sdk ndcBasis 1),
              fsub (sdk ndcBasis 5) (sdk ndcBasis 1)]).det ∧
      (IsUnit (GetTextureTransformMatrix sdk) ↔
        (!![fsub (sdk ndcBasis 2) (sdk ndcBasis 0), fsub (sdk ndcBasis 4) (sdk ndcBasis 0);
            fsub (sdk ndcBasis 3) (sdk ndcBasis 1),
              fsub (sdk ndcBasis 5) (sdk ndcBasis 1)]).det ≠ 0) ∧
      (GetTextureTransformMatrix (pointwiseTransform T)).det =
        (!![(T (1, 0)).1 - (T (0, 0)).1, (T (0, 1)).1 - (T (0, 0)).1;
            (T (1, 0)).2 - (T (0, 0)).2, (T (0, 1)).2 - (T (0, 0)).2]).det ∧
      (IsUnit (GetTextureTransformMatrix (pointwiseTransform T)) ↔
        ¬ Collinear ℚ ({T (0, 0), T (1, 0), T (0, 1)} : Set (ℚ × ℚ))) ∧
      (IsUnit (GetTextureTransformMatrix (pointwiseTransform T)) ↔ Function.Bijective T) := by
  have hdetT : (GetTextureTransformMatrix (pointwiseTransform T)).det =
      ((T (1, 0)).1 - (T (0, 0)).1) * ((T (0, 1)).2 - (T (0, 0)).2) -
        ((T (0, 1)).1 - (T (0, 0)).1) * ((T (1, 0)).2 - (T (0, 0)).2) := by
    obtain ⟨h0, h1, h2, h3, h4, h5⟩ := pointwiseTransform_ndcBasis T
    rw [GetTextureTransformMatrix_exact _ hexact, det_entries, h0, h1, h2, h3, h4, h5]
  have hunit : IsUnit (GetTextureTransformMatrix (pointwiseTransform T)) ↔
      ((T (1, 0)).1 - (T (0, 0)).1) * ((T (0, 1)).2 - (T (0, 0)).2) -
        ((T (0, 1)).1 - (T (0, 0)).1) * ((T (1, 0)).2 - (T (0, 0)).2) ≠ 0 := by
    rw [Matrix.isUnit_iff_isUnit_det, isUnit_iff_ne_zero, hdetT]
  refine ⟨?_, ?_, ?_, ?_, ?_, ?_, ?_⟩
  · rw [GetTextureTransformMatrix_entries]
    simp
  · intro a b c h
    rw [collinear_triple_iff] at h ⊢
    unfold applyToUV
    rw [GetTextureTransformMatrix_entries, mulVec_three, mulVec_three, mulVec_three]
    simp only [Matrix.cons_val_zero, Matrix.cons_val_one, Matrix.head_cons]
    linear_combination
      (fsub (sdk ndcBasis 2) (sdk ndcBasis 0) * fsub (sdk ndcBasis 5) (sdk ndcBasis 1) -
        fsub (sdk ndcBasis 4) (sdk ndcBasis 0) * fsub (sdk ndcBasis 3) (sdk ndcBasis 1)) * h
  · rw [GetTextureTransformMatrix_entries, det_entries, Matrix.det_fin_two]
    simp
  · rw [Matrix.isUnit_iff_isUnit_det, isUnit_iff_ne_zero, GetTextureTransformMatrix_entries,
      det_entries, Matrix.det_fin_two]
    simp
  · rw [hdetT, Matrix.det_fin_two]
    simp
  · rw [hunit, collinear_triple_iff]
  · rw [hunit, affineMap_bijective_iff]

/-- Witness for the amended C3: the unrotated NDC-to-texture mapping. -/
theorem GetTextureTransformMatrix_affine_and_invertible_when_exact_witness :
    subtractionsExact (pointwiseTransform unrotatedMap ndcBasis) ∧
    ((GetTextureTransformMatrix nearlyCollinearSdk 2 0 = 0 ∧
        GetTextureTransformMatrix nearlyCollinearSdk 2 1 = 0 ∧
        GetTextureTransformMatrix nearlyCollinearSdk 2 2 = 1) ∧
      (∀ a b c : ℚ × ℚ, Collinear ℚ ({a, b, c} : Set (ℚ × ℚ)) →
        Collinear ℚ ({applyToUV (GetTextureTransformMatrix nearlyCollinearSdk) a,
          applyToUV (GetTextureTransformMatrix nearlyCollinearSdk) b,
          applyToUV (GetTextureTransformMatrix nearlyCollinearSdk) c} : Set (ℚ × ℚ))) ∧
      (GetTextureTransformMatrix nearlyCollinearSdk).det =
        (!![fsub (nearlyCollinearSdk ndcBasis 2) (nearlyCollinearSdk ndcBasis 0),
              fsub (nearlyCollinearSdk ndcBasis 4) (nearlyCollinearSdk ndcBasis 0);
            fsub (nearlyCollinearSdk ndcBasis 3) (nearlyCollinearSdk ndcBasis 1),
              fsub (nearlyCollinearSdk ndcBasis 5) (nearlyCollinearSdk ndcBasis 1)]).det ∧
      (IsUnit (GetTextureTransformMatrix nearlyCollinearSdk) ↔
        (!![fsub (nearlyCollinearSdk ndcBasis 2) (nearlyCollinearSdk ndcBasis 0),
              fsub (nearlyCollinearSdk ndcBasis 4) (nearlyCollinearSdk ndcBasis 0);
            fsub (nearlyCollinearSdk ndcBasis 3) (nearlyCollinearSdk ndcBasis 1),
              fsub (nearlyCollinearSdk ndcBasis 5) (nearlyCollinearSdk ndcBasis 1)]).det ≠ 0) ∧
      (GetTextureTransformMatrix (pointwiseTransform unrotatedMap)).det =
        (!![(unrotatedMap (1, 0)).1 - (unrotatedMap (0, 0)).1,
              (unrotatedMap (0, 1)).1 - (unrotatedMap (0, 0)).1;
            (unrotatedMap (1, 0)).2 - (unrotatedMap (0, 0)).2,
              (unrotatedMap (0, 1)).2 - (unrotatedMap (0, 0)).2]).det ∧
      (IsUnit (GetTextureTransformMatrix (pointwiseTransform unrotatedMap)) ↔
        ¬ Collinear ℚ ({unrotatedMap (0, 0), unrotatedMap (1, 0), unrotatedMap (0, 1)} :
          Set (ℚ × ℚ))) ∧
      (IsUnit (GetTextureTransformMatrix (pointwiseTransform unrotatedMap)) ↔
        Function.Bijective unrotatedMap)) :=
  ⟨unrotatedMap_subtractionsExact,
    GetTextureTransformMatrix_affine_and_invertible_when_exact nearlyCollinearSdk unrotatedMap
      unrotatedMap_subtractionsExact⟩

/-! ## Lemmas on the operations -/

theorem callsSince_append (w v : World) (l : List Event) (h : v.trace = w.trace ++ l) :
    callsSince w v = l := by
  unfold callsSince
  rw [h]
  simp

theorem DumpData_eq (w : World) (env : SdkAnswers) :
    DumpData w env =
      (if dumpThrows env then Outcome.threw else Outcome.returned)
        { w with trace := w.trace ++ dumpCalls env } := by
  unfold DumpData DumpData_appendLine dumpThrows dumpCalls World.emit
  cases env.is_directory_throws <;> cases env.is_directory <;>
    cases env.create_directory_throws <;> simp

theorem OnDrawFrame_render_eq (w : World) (env : SdkAnswers) (cam : Option Handle)
    (a : Bool) :
    OnDrawFrame_render w env cam a =
      .returned { w with trace := w.trace ++
        ([Event.ArCamera_getViewMatrix w.app.ar_session_ cam,
          Event.ArCamera_getProjectionMatrix w.app.ar_session_ cam (1 / 10) 100,
          Event.BackgroundRenderer_Draw w.app.ar_session_ w.app.ar_frame_ a,
          Event.ArCamera_getTrackingState w.app.ar_session_ cam,
          Event.ArCamera_release cam] ++
        (if env.trackingState_out = .AR_TRACKING_STATE_TRACKING then
          [Event.ArSession_isDepthModeSupported w.app.ar_session_ .AR_DEPTH_MODE_AUTOMATIC] ++
            (if env.isDepthModeSupported_out.getD 0 = 0 then []
              else [Event.DepthTexture_UpdateWithDepthImageOnGlThread w.app.ar_session_
                w.app.ar_frame_])
          else [])) } := by
  unfold OnDrawFrame_render World.emit
  by_cases h3 : env.trackingState_out = .AR_TRACKING_STATE_TRACKING <;>
  by_cases h4 : env.isDepthModeSupported_out.getD 0 = 0 <;>
  simp [h3, h4]

theorem OnDrawFrame_eq (w : World) (env : SdkAnswers) (a b : Bool)
    (hs : w.app.ar_session_ ≠ none) :
    OnDrawFrame w env a b =
      (if w.app.dumpRequested && dumpThrows env then Outcome.threw else Outcome.returned)
        { app := { w.app with dumpRequested := false },
          sessionDepthMode := w.sessionDepthMode,
          trace := w.trace ++ drawFrameCalls w.app env a } := by
  unfold OnDrawFrame drawFrameCalls
  simp only [DumpData_eq, OnDrawFrame_render_eq, compare_exchange_strong, World.emit, hs,
    if_false]
  by_cases h1 : env.update_status = AR_SUCCESS <;>
  by_cases h2 : w.app.dumpRequested = true <;>
  by_cases h5 : dumpThrows env = true <;>
  simp [h1, h2, h5]

theorem OnDrawFrame_null (w : World) (env : SdkAnswers) (a b : Bool)
    (hs : w.app.ar_session_ = none) :
    OnDrawFrame w env a b =
      .returned { w with trace := w.trace ++
          [Event.glClearColor (9 / 10) (9 / 10) (9 / 10) 1, Event.glClear_depth_and_color,
            Event.glEnable .GL_CULL_FACE, Event.glEnable .GL_DEPTH_TEST] } := by
  unfold OnDrawFrame
  simp [World.emit, hs]

theorem OnDrawFrame_null_calls (w : World) (env : SdkAnswers) (a b : Bool)
    (hs : w.app.ar_session_ = none) :
    callsSince w (OnDrawFrame w env a b).world =
      [Event.glClearColor (9 / 10) (9 / 10) (9 / 10) 1, Event.glClear_depth_and_color,
        Event.glEnable .GL_CULL_FACE, Event.glEnable .GL_DEPTH_TEST] := by
  apply callsSince_append
  rw [OnDrawFrame_null w env a b hs]
  rfl

theorem OnDrawFrame_world (w : World) (env : SdkAnswers) (a b : Bool)
    (hs : w.app.ar_session_ ≠ none) :
    (OnDrawFrame w env a b).world =
      { app := { w.app with dumpRequested := false },
        sessionDepthMode := w.sessionDepthMode,
        trace := w.trace ++ drawFrameCalls w.app env a } := by
  rw [OnDrawFrame_eq w env a b hs]
  split_ifs <;> rfl

theorem OnDrawFrame_calls (w : World) (env : SdkAnswers) (a b : Bool)
    (hs : w.app.ar_session_ ≠ none) :
    callsSince w (OnDrawFrame w env a b).world = drawFrameCalls w.app env a := by
  apply callsSince_append
  rw [OnDrawFrame_world w env a b hs]

theorem RequestToDumpData_iterate (n : Nat) (w : World) :
    RequestToDumpData^[n + 1] w = RequestToDumpData w := by
  induction n generalizing w with
  | zero => rfl
  | succ k ih =>
    rw [Function.iterate_succ_apply, ih]
    rfl

/-! ## Theorems on the operations -/

/-- C5: with a null session handle, `OnDrawFrame` returns normally, issues exactly the four
framebuffer calls (clear colour, clear, two enables), none of which is an ARCore SDK call,
and leaves the adapter unchanged: session handle, frame handle, display geometry and
dump-request flag. -/
theorem OnDrawFrame_null_session_is_noop (w : World) (env : SdkAnswers)
    (depthColorVisualizationEnabled useDepthForOcclusion : Bool)
    (hs : w.app.ar_session_ = none) :
    OnDrawFrame w env depthColorVisualizationEnabled useDepthForOcclusion =
        .returned
          (OnDrawFrame w env depthColorVisualizationEnabled useDepthForOcclusion).world ∧
      callsSince w
          (OnDrawFrame w env depthColorVisualizationEnabled useDepthForOcclusion).world =
        [Event.glClearColor (9 / 10) (9 / 10) (9 / 10) 1, Event.glClear_depth_and_color,
          Event.glEnable .GL_CULL_FACE, Event.glEnable .GL_DEPTH_TEST] ∧
      (callsSince w
        (OnDrawFrame w env depthColorVisualizationEnabled useDepthForOcclusion).world).any
          Event.isSdkCall = false ∧
      (OnDrawFrame w env depthColorVisualizationEnabled useDepthForOcclusion).world.app =
        w.app ∧
      (OnDrawFrame w env depthColorVisualizationEnabled
        useDepthForOcclusion).world.sessionDepthMode = w.sessionDepthMode := by
  rw [OnDrawFrame_null_calls w env _ _ hs, OnDrawFrame_null w env _ _ hs]
  exact ⟨rfl, rfl, rfl, rfl, rfl⟩

/-- Witness for C5 on the freshly constructed adapter. -/
theorem OnDrawFrame_null_session_is_noop_witness :
    newARCoreApp.app.ar_session_ = none ∧
      (OnDrawFrame newARCoreApp successAnswers true false =
        .returned (OnDrawFrame newARCoreApp successAnswers true false).world ∧
      callsSince newARCoreApp (OnDrawFrame newARCoreApp successAnswers true false).world =
        [Event.glClearColor (9 / 10) (9 / 10) (9 / 10) 1, Event.glClear_depth_and_color,
          Event.glEnable .GL_CULL_FACE, Event.glEnable .GL_DEPTH_TEST] ∧
      (callsSince newARCoreApp
        (OnDrawFrame newARCoreApp successAnswers true false).world).any
          Event.isSdkCall = false ∧
      (OnDrawFrame newARCoreApp successAnswers true false).world.app = newARCoreApp.app ∧
      (OnDrawFrame newARCoreApp successAnswers true false).world.sessionDepthMode =
        newARCoreApp.sessionDepthMode) :=
  ⟨rfl, OnDrawFrame_null_session_is_noop newARCoreApp successAnswers true false rfl⟩

/-- C10: the claim fails on the path where the dump throws.  On the running world with a
pending dump request and `std::filesystem::is_directory` throwing, `OnDrawFrame` is left by
the exception after `ArFrame_acquireCamera` and before `ArCamera_release`: one acquisition,
no release.  In every invocation there is at most one acquisition and no camera query
follows a release, and the number of releases equals the number of acquisitions except on
that path (non-null session, pending dump request, a throwing filesystem call), where it is
zero. -/
theorem OnDrawFrame_leaks_camera_when_dump_throws (w : World) (env : SdkAnswers)
    (depthColorVisualizationEnabled useDepthForOcclusion : Bool) :
    (OnDrawFrame (RequestToDumpData runningWorld) filesystemFailureAnswers true false =
        .threw
          (OnDrawFrame (RequestToDumpData runningWorld) filesystemFailureAnswers
            true false).world ∧
      callsSince runningWorld
          (OnDrawFrame (RequestToDumpData runningWorld) filesystemFailureAnswers
            true false).world =
        [Event.glClearColor (9 / 10) (9 / 10) (9 / 10) 1, Event.glClear_depth_and_color,
          Event.glEnable .GL_CULL_FACE, Event.glEnable .GL_DEPTH_TEST,
          Event.BackgroundRenderer_GetTextureId,
          Event.ArSession_setCameraTextureName (some 1) 7,
          Event.ArSession_update (some 1) (some 2),
          Event.ArFrame_acquireCamera (some 1) (some 2),
          Event.fs_is_directory dumpDir] ∧
      (callsSince runningWorld
        (OnDrawFrame (RequestToDumpData runningWorld) filesystemFailureAnswers
          true false).world).countP Event.isAcquireCamera = 1 ∧
      (callsSince runningWorld
        (OnDrawFrame (RequestToDumpData runningWorld) filesystemFailureAnswers
          true false).world).countP Event.isReleaseCamera = 0) ∧
    ((callsSince w
        (OnDrawFrame w env depthColorVisualizationEnabled
          useDepthForOcclusion).world).countP Event.isAcquireCamera ≤ 1 ∧
      (callsSince w
        (OnDrawFrame w env depthColorVisualizationEnabled
          useDepthForOcclusion).world).countP Event.isReleaseCamera =
        (if w.app.ar_session_.isSome && w.app.dumpRequested &&
            (env.is_directory_throws ||
              (!env.is_directory && env.create_directory_throws)) then 0
          else
            (callsSince w
              (OnDrawFrame w env depthColorVisualizationEnabled
                useDepthForOcclusion).world).countP Event.isAcquireCamera) ∧
      noCameraQueryAfterRelease (callsSince w
        (OnDrawFrame w env depthColorVisualizationEnabled
          useDepthForOcclusion).world) = true) := by
  constructor
  · have hs : (RequestToDumpData runningWorld).app.ar_session_ ≠ none := by
      simp [RequestToDumpData, runningWorld]
    have hc : callsSince runningWorld
        (OnDrawFrame (RequestToDumpData runningWorld) filesystemFailureAnswers
          true false).world =
        drawFrameCalls (RequestToDumpData runningWorld).app filesystemFailureAnswers true :=
      callsSince_append _ _ _ (by rw [OnDrawFrame_world _ _ _ _ hs]; rfl)
    rw [hc, OnDrawFrame_eq _ _ _ _ hs]
    simp [drawFrameCalls, dumpCalls, dumpThrows, RequestToDumpData, runningWorld,
      filesystemFailureAnswers, successAnswers, AR_SUCCESS, Outcome.world,
      Event.isAcquireCamera, Event.isReleaseCamera, List.countP_cons]
  · by_cases hs : w.app.ar_session_ = none
    · rw [OnDrawFrame_null_calls w env _ _ hs]
      simp [hs, List.countP_cons, Event.isAcquireCamera, Event.isReleaseCamera,
        noCameraQueryAfterRelease]
    · obtain ⟨s, hsome⟩ := Option.ne_none_iff_exists'.mp hs
      rw [OnDrawFrame_calls w env _ _ hs]
      unfold drawFrameCalls dumpCalls dumpThrows
      by_cases h1 : env.update_status = AR_SUCCESS <;>
      by_cases h2 : w.app.dumpRequested = true <;>
      by_cases h3 : env.trackingState_out = .AR_TRACKING_STATE_TRACKING <;>
      by_cases h4 : env.isDepthModeSupported_out.getD 0 = 0 <;>
      cases h5 : env.is_directory_throws <;>
      cases h6 : env.is_directory <;>
      cases h7 : env.create_directory_throws <;>
      simp [hsome, h1, h2, h3, h4, List.countP_cons, Event.isReleaseCamera,
        Event.isAcquireCamera, Event.isCameraQuery, noCameraQueryAfterRelease]

/-- C4: on a null session handle `IsDepthSupported` still issues the session call
`ArSession_isDepthModeSupported` (passing `nullptr`), whereas `OnPause`,
`OnDisplayGeometryChanged`, `OnDrawFrame`, `OnSettingsChange` and the destructor issue no
ARCore SDK call. -/
theorem IsDepthSupported_null_session_calls_sdk (w : World) (env : SdkAnswers)
    (display_rotation width height : Int) (a b : Bool) :
    (withNullSession w).app.ar_session_ = none ∧
      callsSince (withNullSession w) (IsDepthSupported (withNullSession w) env).2 =
        [Event.ArSession_isDepthModeSupported none .AR_DEPTH_MODE_AUTOMATIC] ∧
      (callsSince (withNullSession w) (IsDepthSupported (withNullSession w) env).2).any
        Event.isSessionCall = true ∧
      (callsSince (withNullSession w) (OnPause (withNullSession w))).any
        Event.isSdkCall = false ∧
      (callsSince (withNullSession w)
        (OnDisplayGeometryChanged (withNullSession w) display_rotation width height)).any
          Event.isSdkCall = false ∧
      (callsSince (withNullSession w) (OnDrawFrame (withNullSession w) env a b).world).any
        Event.isSdkCall = false ∧
      (callsSince (withNullSession w) (OnSettingsChange (withNullSession w) env).world).any
        Event.isSdkCall = false ∧
      (callsSince (withNullSession w) (Destructor (withNullSession w))).any
        Event.isSdkCall = false := by
  have hI : callsSince (withNullSession w) (IsDepthSupported (withNullSession w) env).2 =
      [Event.ArSession_isDepthModeSupported none .AR_DEPTH_MODE_AUTOMATIC] :=
    callsSince_append _ _ _ rfl
  have hP : callsSince (withNullSession w) (OnPause (withNullSession w)) =
      [Event.LOGI "OnPause()"] := callsSince_append _ _ _ rfl
  have hG : callsSince (withNullSession w)
      (OnDisplayGeometryChanged (withNullSession w) display_rotation width height) =
      [Event.LOGI "OnSurfaceChanged(%d, %d)", Event.glViewport 0 0 width height] :=
    callsSince_append _ _ _ (by simp [OnDisplayGeometryChanged, World.emit, withNullSession])
  have hS : callsSince (withNullSession w) (OnSettingsChange (withNullSession w) env).world =
      [] := callsSince_append _ _ _ (by simp [OnSettingsChange, withNullSession, Outcome.world])
  have hD : callsSince (withNullSession w) (Destructor (withNullSession w)) = [] :=
    callsSince_append _ _ _ (by simp [Destructor, withNullSession])
  rw [hI, hP, hG, hS, hD, OnDrawFrame_null_calls (withNullSession w) env a b rfl]
  exact ⟨rfl, rfl, rfl, rfl, rfl, rfl, rfl, rfl⟩

/-- C6 as stated fails: after three calls of `RequestToDumpData` on the running world, an
`OnDrawFrame` during which `std::filesystem::is_directory` throws is left by the exception
with the flag already cleared and without any append to the dump file. -/
theorem dump_request_lost_when_filesystem_throws :
    (1 ≤ 3 ∧ runningWorld.app.ar_session_ ≠ none) ∧
      OnDrawFrame (RequestToDumpData^[3] runningWorld) filesystemFailureAnswers true false =
        .threw
          (OnDrawFrame (RequestToDumpData^[3] runningWorld) filesystemFailureAnswers
            true false).world ∧
      (callsSince runningWorld
          (OnDrawFrame (RequestToDumpData^[3] runningWorld) filesystemFailureAnswers
            true false).world).countP Event.isFileAppend = 0 ∧
      (OnDrawFrame (RequestToDumpData^[3] runningWorld) filesystemFailureAnswers
        true false).world.app.dumpRequested = false := by
  have hs : (RequestToDumpData runningWorld).app.ar_session_ ≠ none := by
    simp [RequestToDumpData, runningWorld]
  have hc : callsSince runningWorld
      (OnDrawFrame (RequestToDumpData runningWorld) filesystemFailureAnswers
        true false).world =
      drawFrameCalls (RequestToDumpData runningWorld).app filesystemFailureAnswers true :=
    callsSince_append _ _ _ (by rw [OnDrawFrame_world _ _ _ _ hs]; rfl)
  rw [RequestToDumpData_iterate, hc, OnDrawFrame_eq _ _ _ _ hs]
  refine ⟨⟨by decide, by simp [runningWorld]⟩, ?_⟩
  simp [drawFrameCalls, dumpCalls, dumpThrows, RequestToDumpData, runningWorld,
    filesystemFailureAnswers, successAnswers, AR_SUCCESS, Outcome.world,
    Event.isFileAppend, List.countP_cons]

/-- C6 amended: after N >= 1 calls of `RequestToDumpData`, one `OnDrawFrame` on a non-null
session appends to the dump file at most once: exactly once when no `std::filesystem` call
of `DumpData` throws and the stream write succeeds, not at all otherwise.  In every case the
dump-request flag is left cleared, and a following `OnDrawFrame` with no new request appends
nothing. -/
theorem dump_requests_coalesce_to_at_most_one_append (N : Nat) (w : World)
    (env env2 : SdkAnswers) (a b c d : Bool) (hN : 1 ≤ N) (hs : w.app.ar_session_ ≠ none) :
    (callsSince w (OnDrawFrame (RequestToDumpData^[N] w) env a b).world).countP
        Event.isFileAppend ≤ 1 ∧
      (callsSince w (OnDrawFrame (RequestToDumpData^[N] w) env a b).world).countP
          Event.isFileAppend =
        (if env.is_directory_throws || (!env.is_directory && env.create_directory_throws)
          then 0
          else if env.ofstream_write_succeeds then 1 else 0) ∧
      (OnDrawFrame (RequestToDumpData^[N] w) env a b).world.app.dumpRequested = false ∧
      (callsSince (OnDrawFrame (RequestToDumpData^[N] w) env a b).world
        (OnDrawFrame (OnDrawFrame (RequestToDumpData^[N] w) env a b).world
          env2 c d).world).countP Event.isFileAppend = 0 := by
  obtain ⟨n, rfl⟩ : ∃ n, N = n + 1 := ⟨N - 1, by omega⟩
  have hs1 : (RequestToDumpData w).app.ar_session_ ≠ none := hs
  have hs2 : (OnDrawFrame (RequestToDumpData w) env a b).world.app.ar_session_ ≠ none := by
    rw [OnDrawFrame_world _ env a b hs1]
    exact hs
  have hflag : (OnDrawFrame (RequestToDumpData w) env a b).world.app.dumpRequested = false := by
    rw [OnDrawFrame_world _ env a b hs1]
  have hcalls : callsSince w (OnDrawFrame (RequestToDumpData w) env a b).world =
      drawFrameCalls (RequestToDumpData w).app env a :=
    callsSince_append _ _ _ (by rw [OnDrawFrame_world _ env a b hs1]; rfl)
  have hcount : (drawFrameCalls (RequestToDumpData w).app env a).countP Event.isFileAppend =
      (if env.is_directory_throws || (!env.is_directory && env.create_directory_throws)
        then 0
        else if env.ofstream_write_succeeds then 1 else 0) := by
    unfold drawFrameCalls dumpCalls dumpThrows
    by_cases h1 : env.update_status = AR_SUCCESS <;>
    by_cases h3 : env.trackingState_out = .AR_TRACKING_STATE_TRACKING <;>
    by_cases h4 : env.isDepthModeSupported_out.getD 0 = 0 <;>
    cases h5 : env.is_directory_throws <;>
    cases h6 : env.is_directory <;>
    cases h7 : env.create_directory_throws <;>
    cases h8 : env.ofstream_write_succeeds <;>
    simp [h1, h3, h4, RequestToDumpData, List.countP_cons, Event.isFileAppend]
  rw [RequestToDumpData_iterate, hcalls, OnDrawFrame_calls _ env2 c d hs2, hcount]
  refine ⟨?_, rfl, hflag, ?_⟩
  · split_ifs <;> decide
  · unfold drawFrameCalls
    by_cases h1 : env2.update_status = AR_SUCCESS <;>
    by_cases h3 : env2.trackingState_out = .AR_TRACKING_STATE_TRACKING <;>
    by_cases h4 : env2.isDepthModeSupported_out.getD 0 = 0 <;>
    simp [h1, h3, h4, hflag, List.countP_cons, Event.isFileAppend]

/-- Witness for the amended C6: three requests before one frame on the running world. -/
theorem dump_requests_coalesce_to_at_most_one_append_witness :
    (1 ≤ 3 ∧ runningWorld.app.ar_session_ ≠ none) ∧
      ((callsSince runningWorld
          (OnDrawFrame (RequestToDumpData^[3] runningWorld) successAnswers
            true false).world).countP Event.isFileAppend ≤ 1 ∧
        (callsSince runningWorld
          (OnDrawFrame (RequestToDumpData^[3] runningWorld) successAnswers
            true false).world).countP Event.isFileAppend =
          (if successAnswers.is_directory_throws ||
              (!successAnswers.is_directory && successAnswers.create_directory_throws)
            then 0
            else if successAnswers.ofstream_write_succeeds then 1 else 0) ∧
        (OnDrawFrame (RequestToDumpData^[3] runningWorld) successAnswers
          true false).world.app.dumpRequested = false ∧
        (callsSince
          (OnDrawFrame (RequestToDumpData^[3] runningWorld) successAnswers true false).world
          (OnDrawFrame
            (OnDrawFrame (RequestToDumpData^[3] runningWorld) successAnswers
              true false).world
            successAnswers true false).world).countP Event.isFileAppend = 0) :=
  ⟨⟨by decide, by simp [runningWorld]⟩,
    dump_requests_coalesce_to_at_most_one_append 3 runningWorld successAnswers successAnswers
      true false true false (by decide) (by simp [runningWorld])⟩

/-- C7: starting from a null session, when `ArCoreApk_requestInstall` succeeds with status
INSTALL_REQUESTED, `OnResume` returns after the install request alone (no `ArSession_create`,
`ArFrame_create` or `ArSession_resume`), with the session handle still null, the frame
handle untouched and `install_requested_` set; a following `OnPause` only logs and issues no
SDK call. -/
theorem OnResume_install_requested (w : World) (env : SdkAnswers)
    (hs : w.app.ar_session_ = none)
    (hstatus : env.requestInstall_status = AR_SUCCESS)
    (hout : env.requestInstall_out = .AR_INSTALL_STATUS_INSTALL_REQUESTED) :
    OnResume w env =
        .returned
          { app := { w.app with install_requested_ := true },
            sessionDepthMode := w.sessionDepthMode,
            trace := w.trace ++
              [Event.LOGI "OnResume()",
                Event.ArCoreApk_requestInstall (!w.app.install_requested_)] } ∧
      (OnResume w env).world.app.ar_session_ = none ∧
      (OnResume w env).world.app.ar_frame_ = w.app.ar_frame_ ∧
      (OnResume w env).world.app.install_requested_ = true ∧
      callsSince (OnResume w env).world (OnPause (OnResume w env).world) =
        [Event.LOGI "OnPause()"] ∧
      (callsSince (OnResume w env).world (OnPause (OnResume w env).world)).any
        Event.isSdkCall = false ∧
      (OnPause (OnResume w env).world).app = (OnResume w env).world.app := by
  have h : OnResume w env =
      .returned
        { app := { w.app with install_requested_ := true },
          sessionDepthMode := w.sessionDepthMode,
          trace := w.trace ++
            [Event.LOGI "OnResume()",
              Event.ArCoreApk_requestInstall (!w.app.install_requested_)] } := by
    unfold OnResume
    simp [World.emit, hs, CHECKANDTHROW, hstatus, hout]
  rw [h]
  have hp : callsSince
      (Outcome.returned
        { app := { w.app with install_requested_ := true },
          sessionDepthMode := w.sessionDepthMode,
          trace := w.trace ++
            [Event.LOGI "OnResume()",
              Event.ArCoreApk_requestInstall (!w.app.install_requested_)] }).world
      (OnPause (Outcome.returned
        { app := { w.app with install_requested_ := true },
          sessionDepthMode := w.sessionDepthMode,
          trace := w.trace ++
            [Event.LOGI "OnResume()",
              Event.ArCoreApk_requestInstall (!w.app.install_requested_)] }).world) =
      [Event.LOGI "OnPause()"] :=
    callsSince_append _ _ _ (by simp [OnPause, World.emit, Outcome.world, hs])
  rw [hp]
  refine ⟨rfl, hs, rfl, rfl, rfl, rfl, ?_⟩
  simp [OnPause, World.emit, Outcome.world, hs]

/-- Witness for C7 on the freshly constructed adapter. -/
theorem OnResume_install_requested_witness :
    (newARCoreApp.app.ar_session_ = none ∧
      installRequestedAnswers.requestInstall_status = AR_SUCCESS ∧
      installRequestedAnswers.requestInstall_out = .AR_INSTALL_STATUS_INSTALL_REQUESTED) ∧
    (OnResume newARCoreApp installRequestedAnswers =
        .returned
          { app := { newARCoreApp.app with install_requested_ := true },
            sessionDepthMode := newARCoreApp.sessionDepthMode,
            trace := newARCoreApp.trace ++
              [Event.LOGI "OnResume()",
                Event.ArCoreApk_requestInstall (!newARCoreApp.app.install_requested_)] } ∧
      (OnResume newARCoreApp installRequestedAnswers).world.app.ar_session_ = none ∧
      (OnResume newARCoreApp installRequestedAnswers).world.app.ar_frame_ =
        newARCoreApp.app.ar_frame_ ∧
      (OnResume newARCoreApp installRequestedAnswers).world.app.install_requested_ = true ∧
      callsSince (OnResume newARCoreApp installRequestedAnswers).world
          (OnPause (OnResume newARCoreApp installRequestedAnswers).world) =
        [Event.LOGI "OnPause()"] ∧
      (callsSince (OnResume newARCoreApp installRequestedAnswers).world
        (OnPause (OnResume newARCoreApp installRequestedAnswers).world)).any
          Event.isSdkCall = false ∧
      (OnPause (OnResume newARCoreApp installRequestedAnswers).world).app =
        (OnResume newARCoreApp installRequestedAnswers).world.app) :=
  ⟨⟨rfl, rfl, rfl⟩, OnResume_install_requested newARCoreApp installRequestedAnswers rfl rfl rfl⟩

/-- C8 as stated fails: on the running world, with `ArSession_update` returning an error,
the calls issued after the error log include per-frame work; the whole call sequence of the
invocation is listed. -/
theorem OnDrawFrame_update_failure_not_skipped :
    runningWorld.app.ar_session_ ≠ none ∧
      updateFailureAnswers.update_status ≠ AR_SUCCESS ∧
      callsSince runningWorld
          (OnDrawFrame runningWorld updateFailureAnswers false false).world =
        [Event.glClearColor (9 / 10) (9 / 10) (9 / 10) 1, Event.glClear_depth_and_color,
          Event.glEnable .GL_CULL_FACE, Event.glEnable .GL_DEPTH_TEST,
          Event.BackgroundRenderer_GetTextureId,
          Event.ArSession_setCameraTextureName (some 1) 7,
          Event.ArSession_update (some 1) (some 2),
          Event.LOGE "HelloArApplication::OnDrawFrame ArSession_update error",
          Event.ArFrame_acquireCamera (some 1) (some 2),
          Event.ArCamera_getViewMatrix (some 1) (some 3),
          Event.ArCamera_getProjectionMatrix (some 1) (some 3) (1 / 10) 100,
          Event.BackgroundRenderer_Draw (some 1) (some 2) false,
          Event.ArCamera_getTrackingState (some 1) (some 3),
          Event.ArCamera_release (some 3),
          Event.ArSession_isDepthModeSupported (some 1) .AR_DEPTH_MODE_AUTOMATIC,
          Event.DepthTexture_UpdateWithDepthImageOnGlThread (some 1) (some 2)] ∧
      (afterErrorLog
        (callsSince runningWorld
          (OnDrawFrame runningWorld updateFailureAnswers false false).world)).any
            Event.isPerFrameWork = true := by
  have hs : runningWorld.app.ar_session_ ≠ none := by simp [runningWorld]
  rw [OnDrawFrame_calls runningWorld updateFailureAnswers false false hs]
  refine ⟨hs, by decide, ?_, ?_⟩ <;>
    simp [drawFrameCalls, dumpCalls, dumpThrows, runningWorld, updateFailureAnswers,
      successAnswers, AR_SUCCESS, afterErrorLog, Event.isPerFrameWork]

/-- C8 amended: on a non-null session, when `ArSession_update` returns an error, the error is
logged right after the update call and the frame is not skipped.  The invocation goes on to
acquire the camera and to service a pending dump request; unless a `std::filesystem` call
of that dump throws, which ends the invocation there, it then queries the view and
projection matrices, draws the background, queries the tracking state, releases the camera
and, when the camera is tracking, queries depth support and updates the depth texture if
depth is supported.  These are the calls of an invocation whose update succeeds, with the
error log inserted after `ArSession_update`, and the adapter ends in the same state: the
fields of `w` with the dump-request flag cleared. -/
theorem OnDrawFrame_update_failure_logs_and_continues (w : World) (env : SdkAnswers)
    (depthColorVisualizationEnabled useDepthForOcclusion : Bool)
    (hs : w.app.ar_session_ ≠ none) (hfail : env.update_status ≠ AR_SUCCESS) :
    callsSince w
        (OnDrawFrame w env depthColorVisualizationEnabled useDepthForOcclusion).world =
        [Event.glClearColor (9 / 10) (9 / 10) (9 / 10) 1, Event.glClear_depth_and_color,
          Event.glEnable .GL_CULL_FACE, Event.glEnable .GL_DEPTH_TEST,
          Event.BackgroundRenderer_GetTextureId,
          Event.ArSession_setCameraTextureName w.app.ar_session_ env.textureId,
          Event.ArSession_update w.app.ar_session_ w.app.ar_frame_,
          Event.LOGE "HelloArApplication::OnDrawFrame ArSession_update error",
          Event.ArFrame_acquireCamera w.app.ar_session_ w.app.ar_frame_] ++
        (if w.app.dumpRequested then
          [Event.fs_is_directory "/data/data/com.danielwei.arcoreapp/dump"] ++
            (if env.is_directory_throws then []
              else
                (if env.is_directory then []
                  else [Event.fs_create_directory "/data/data/com.danielwei.arcoreapp/dump"]) ++
                (if !env.is_directory && env.create_directory_throws then []
                  else
                    [Event.ofstream_open_app
                        "/data/data/com.danielwei.arcoreapp/dump/test.txt",
                      Event.ofstream_write_line "test" env.ofstream_write_succeeds,
                      Event.ofstream_close]))
          else []) ++
        (if w.app.dumpRequested &&
            (env.is_directory_throws ||
              (!env.is_directory && env.create_directory_throws)) then []
          else
            [Event.ArCamera_getViewMatrix w.app.ar_session_ env.acquireCamera_out,
              Event.ArCamera_getProjectionMatrix w.app.ar_session_ env.acquireCamera_out
                (1 / 10) 100,
              Event.BackgroundRenderer_Draw w.app.ar_session_ w.app.ar_frame_
                depthColorVisualizationEnabled,
              Event.ArCamera_getTrackingState w.app.ar_session_ env.acquireCamera_out,
              Event.ArCamera_release env.acquireCamera_out] ++
            (if env.trackingState_out = .AR_TRACKING_STATE_TRACKING then
              [Event.ArSession_isDepthModeSupported w.app.ar_session_
                  .AR_DEPTH_MODE_AUTOMATIC] ++
                (if env.isDepthModeSupported_out.getD 0 = 0 then []
                  else
                    [Event.DepthTexture_UpdateWithDepthImageOnGlThread w.app.ar_session_
                      w.app.ar_frame_])
              else [])) ∧
      callsSince w
          (OnDrawFrame w env depthColorVisualizationEnabled useDepthForOcclusion).world =
        (callsSince w (OnDrawFrame w { env with update_status := AR_SUCCESS }
          depthColorVisualizationEnabled useDepthForOcclusion).world).take 7 ++
        [Event.LOGE "HelloArApplication::OnDrawFrame ArSession_update error"] ++
        (callsSince w (OnDrawFrame w { env with update_status := AR_SUCCESS }
          depthColorVisualizationEnabled useDepthForOcclusion).world).drop 7 ∧
      (OnDrawFrame w env depthColorVisualizationEnabled useDepthForOcclusion).world.app =
        (OnDrawFrame w { env with update_status := AR_SUCCESS }
          depthColorVisualizationEnabled useDepthForOcclusion).world.app ∧
      (OnDrawFrame w env depthColorVisualizationEnabled useDepthForOcclusion).world.app =
        { w.app with dumpRequested := false } ∧
      (OnDrawFrame w env depthColorVisualizationEnabled
        useDepthForOcclusion).world.sessionDepthMode = w.sessionDepthMode := by
  rw [OnDrawFrame_calls w env _ _ hs, OnDrawFrame_calls w _ _ _ hs,
    OnDrawFrame_world w env _ _ hs, OnDrawFrame_world w _ _ _ hs]
  unfold drawFrameCalls dumpCalls dumpThrows dumpDir dumpFile
  simp [hfail]

/-- Witness for the amended C8 on the running world with a pending dump request. -/
theorem OnDrawFrame_update_failure_logs_and_continues_witness :
    ((RequestToDumpData runningWorld).app.ar_session_ ≠ none ∧
      updateFailureAnswers.update_status ≠ AR_SUCCESS) ∧
    callsSince (RequestToDumpData runningWorld)
        (OnDrawFrame (RequestToDumpData runningWorld) updateFailureAnswers true false).world =
      [Event.glClearColor (9 / 10) (9 / 10) (9 / 10) 1, Event.glClear_depth_and_color,
        Event.glEnable .GL_CULL_FACE, Event.glEnable .GL_DEPTH_TEST,
        Event.BackgroundRenderer_GetTextureId,
        Event.ArSession_setCameraTextureName (some 1) 7,
        Event.ArSession_update (some 1) (some 2),
        Event.LOGE "HelloArApplication::OnDrawFrame ArSession_update error",
        Event.ArFrame_acquireCamera (some 1) (some 2),
        Event.fs_is_directory "/data/data/com.danielwei.arcoreapp/dump",
        Event.fs_create_directory "/data/data/com.danielwei.arcoreapp/dump",
        Event.ofstream_open_app "/data/data/com.danielwei.arcoreapp/dump/test.txt",
        Event.ofstream_write_line "test" true,
        Event.ofstream_close,
        Event.ArCamera_getViewMatrix (some 1) (some 3),
        Event.ArCamera_getProjectionMatrix (some 1) (some 3) (1 / 10) 100,
        Event.BackgroundRenderer_Draw (some 1) (some 2) true,
        Event.ArCamera_getTrackingState (some 1) (some 3),
        Event.ArCamera_release (some 3),
        Event.ArSession_isDepthModeSupported (some 1) .AR_DEPTH_MODE_AUTOMATIC,
        Event.DepthTexture_UpdateWithDepthImageOnGlThread (some 1) (some 2)] := by
  have hs : (RequestToDumpData runningWorld).app.ar_session_ ≠ none := by
    simp [RequestToDumpData, runningWorld]
  have hfail : updateFailureAnswers.update_status ≠ AR_SUCCESS := by decide
  refine ⟨⟨hs, hfail⟩, ?_⟩
  rw [(OnDrawFrame_update_failure_logs_and_continues (RequestToDumpData runningWorld)
    updateFailureAnswers true false hs hfail).1]
  simp [RequestToDumpData, runningWorld, updateFailureAnswers, successAnswers]

theorem ConfigureSession_eq (w : World) (env : SdkAnswers)
    (hcfg : env.configCreate_out ≠ none) (hok : env.configure_status = AR_SUCCESS) :
    ConfigureSession w env =
      .returned
        { app := w.app,
          sessionDepthMode :=
            some (if env.isDepthModeSupported_out.getD 0 ≠ 0 then .AR_DEPTH_MODE_AUTOMATIC
              else .AR_DEPTH_MODE_DISABLED),
          trace := w.trace ++
            [Event.ArSession_isDepthModeSupported w.app.ar_session_ .AR_DEPTH_MODE_AUTOMATIC,
              Event.ArConfig_create w.app.ar_session_,
              Event.ArConfig_setDepthMode w.app.ar_session_ env.configCreate_out
                (if env.isDepthModeSupported_out.getD 0 ≠ 0 then .AR_DEPTH_MODE_AUTOMATIC
                  else .AR_DEPTH_MODE_DISABLED),
              Event.ArSession_configure w.app.ar_session_ env.configCreate_out,
              Event.ArConfig_destroy env.configCreate_out] } := by
  obtain ⟨c, hc⟩ := Option.ne_none_iff_exists'.mp hcfg
  unfold ConfigureSession IsDepthSupported
  by_cases h : env.isDepthModeSupported_out.getD 0 = 0 <;>
    simp [World.emit, CHECK, hc, hok, h]

/-- C9: on a non-null session, when the configuration object is created and
`ArSession_configure` succeeds in both calls and the depth-capability query answers the same
both times, `ConfigureSession` (which is what `OnSettingsChange` runs) returns with the
session configured to AUTOMATIC if the query reported support and to DISABLED otherwise (a
query that writes no answer counting as unsupported), and a second `ConfigureSession`
returns with the same adapter fields and the same configured depth mode as the first. -/
theorem ConfigureSession_idempotent (w : World) (env1 env2 : SdkAnswers)
    (hs : w.app.ar_session_ ≠ none)
    (hsame : env2.isDepthModeSupported_out = env1.isDepthModeSupported_out)
    (hcfg1 : env1.configCreate_out ≠ none) (hok1 : env1.configure_status = AR_SUCCESS)
    (hcfg2 : env2.configCreate_out ≠ none) (hok2 : env2.configure_status = AR_SUCCESS) :
    OnSettingsChange w env1 = ConfigureSession w env1 ∧
      ConfigureSession w env1 = .returned (ConfigureSession w env1).world ∧
      (ConfigureSession w env1).world.sessionDepthMode =
        some (if env1.isDepthModeSupported_out.getD 0 ≠ 0 then .AR_DEPTH_MODE_AUTOMATIC
          else .AR_DEPTH_MODE_DISABLED) ∧
      (ConfigureSession w env1).world.app = w.app ∧
      ConfigureSession (ConfigureSession w env1).world env2 =
        .returned (ConfigureSession (ConfigureSession w env1).world env2).world ∧
      (ConfigureSession (ConfigureSession w env1).world env2).world.sessionDepthMode =
        (ConfigureSession w env1).world.sessionDepthMode ∧
      (ConfigureSession (ConfigureSession w env1).world env2).world.app =
        (ConfigureSession w env1).world.app := by
  have h0 : OnSettingsChange w env1 = ConfigureSession w env1 := by
    unfold OnSettingsChange
    simp [hs]
  rw [h0, ConfigureSession_eq w env1 hcfg1 hok1]
  simp only [Outcome.world]
  rw [ConfigureSession_eq _ env2 hcfg2 hok2, hsame]
  simp only [Outcome.world]
  exact ⟨trivial, trivial, trivial, trivial, trivial, trivial, trivial⟩

/-- Witness for C9 on the running world, with depth supported. -/
theorem ConfigureSession_idempotent_witness :
    (runningWorld.app.ar_session_ ≠ none ∧
      successAnswers.isDepthModeSupported_out = successAnswers.isDepthModeSupported_out ∧
      successAnswers.configCreate_out ≠ none ∧ successAnswers.configure_status = AR_SUCCESS) ∧
    (OnSettingsChange runningWorld successAnswers =
        ConfigureSession runningWorld successAnswers ∧
      ConfigureSession runningWorld successAnswers =
        .returned (ConfigureSession runningWorld successAnswers).world ∧
      (ConfigureSession runningWorld successAnswers).world.sessionDepthMode =
        some (if successAnswers.isDepthModeSupported_out.getD 0 ≠ 0 then
          .AR_DEPTH_MODE_AUTOMATIC else .AR_DEPTH_MODE_DISABLED) ∧
      (ConfigureSession runningWorld successAnswers).world.app = runningWorld.app ∧
      ConfigureSession (ConfigureSession runningWorld successAnswers).world successAnswers =
        .returned (ConfigureSession (ConfigureSession runningWorld successAnswers).world
          successAnswers).world ∧
      (ConfigureSession (ConfigureSession runningWorld successAnswers).world
          successAnswers).world.sessionDepthMode =
        (ConfigureSession runningWorld successAnswers).world.sessionDepthMode ∧
      (ConfigureSession (ConfigureSession runningWorld successAnswers).world
          successAnswers).world.app =
        (ConfigureSession runningWorld successAnswers).world.app) :=
  ⟨⟨by simp [runningWorld], rfl, by simp [successAnswers], rfl⟩,
    ConfigureSession_idempotent runningWorld successAnswers successAnswers
      (by simp [runningWorld]) rfl (by simp [successAnswers]) rfl
      (by simp [successAnswers]) rfl⟩

end arcoreapp
